import Mathlib

/-!
# Verification of the CityWave multiplayer server core

Shallow embedding of `src/server.js` (class `MultiplayerServer`): the session
registry (`this.players`), the message router (`handlePlayerMessage` and the
per-type handlers), outbound delivery (`sendToPlayer`, `broadcastToLocation`,
`getPlayersInLocation`) and the liveness reaper (`cleanupDisconnectedPlayers`).

Modelling conventions:
* JS numbers used for coordinates are modelled as rationals (`ℚ`); `NaN` is
  represented by `Option.none` at the point where `parseFloat` can produce it.
* JS strings are modelled as Lean `String`; the string operations the code
  uses (`trim`, `substring(0, n)`, `length`) are modelled on the character
  list `String.data` (`jsTrim`, `jsSubstring0`, `jsLen`).
* The registry `this.players : Map<id, player>` is modelled as an
  insertion-ordered list of `Player` records; `Map.get` is `findPlayer`,
  `Map.delete` is `removePlayer`, `Map.set` is `mapSet`.
* The transport handle `ws` is modelled by the one bit the core reads:
  `wsOpen` (`ws.readyState === WebSocket.OPEN`).  Sends are modelled as an
  output list of `(recipient, message)` pairs; the model assumes `ws.send`
  does not throw.
* A JS exception inside a handler (reading a property of `undefined`) is
  modelled by `Except.error ()`; the `try/catch` of `handlePlayerMessage`
  catches it and sends the `"Invalid message format"` error reply.
-/

namespace CityWave

abbrev PlayerId := String

/-- A JS value that can appear in the `x` / `y` fields of a `player_move`
payload: a number, a string, or anything else (`undefined`, `null`, a missing
field, ... — everything `parseFloat` turns into `NaN`). -/
inductive JVal where
  | num (q : ℚ)
  | str (s : String)
  | undef
deriving DecidableEq

/-- Digit list to natural number (helper for the decimal-string parser). -/
def digitsVal (cs : List Char) : Nat :=
  cs.foldl (fun n c => n * 10 + (c.toNat - '0'.toNat)) 0

/-- Model of JS `parseFloat` on a string, restricted to the plain decimal
forms the server's clients use: optional leading whitespace, optional sign,
digits with an optional fractional part; trailing garbage is ignored
(JS prefix semantics).  Strings with no leading decimal numeral parse to
`none` (JS `NaN`).  Exponent and `Infinity` forms are outside the modelled
fragment. -/
def parseFloatString (s : String) : Option ℚ :=
  let cs := s.data.dropWhile (fun c => c.isWhitespace)
  let signed : ℚ × List Char :=
    match cs with
    | '-' :: rest => (-1, rest)
    | '+' :: rest => (1, rest)
    | _ => (1, cs)
  let intPart := signed.2.takeWhile (fun c => c.isDigit)
  let rest := signed.2.dropWhile (fun c => c.isDigit)
  let fracPart : List Char :=
    match rest with
    | '.' :: r => r.takeWhile (fun c => c.isDigit)
    | _ => []
  if intPart.isEmpty && fracPart.isEmpty then none
  else
    some (signed.1 * ((digitsVal intPart : ℚ) +
      (digitsVal fracPart : ℚ) / ((10 : ℚ) ^ fracPart.length)))

/-- Model of JS `parseFloat` applied to a dynamic value; `none` is `NaN`. -/
def parseFloat : JVal → Option ℚ
  | .num q => some q
  | .str s => parseFloatString s
  | .undef => none

/-- Model of `v || 0` applied to the result of `parseFloat`: `NaN` and `0`
are falsy, every other number is kept. -/
def jsOrZero : Option ℚ → ℚ
  | none => 0
  | some q => if q = 0 then 0 else q

/-- `Math.min a b` (no `NaN` can reach it in this code). -/
def jsMin (a b : ℚ) : ℚ := if a ≤ b then a else b

/-- `Math.max a b` (no `NaN` can reach it in this code). -/
def jsMax (a b : ℚ) : ℚ := if a ≤ b then b else a

/-- `Math.max(0, Math.min(100, parseFloat(v) || 0))` — the coordinate
validation of `handlePlayerMove`. -/
def clampMove (v : JVal) : ℚ := jsMax 0 (jsMin 100 (jsOrZero (parseFloat v)))

/-- JS `String.prototype.trim` on the character-list model. -/
def jsTrim (s : String) : String :=
  ⟨((s.data.dropWhile (fun c => c.isWhitespace)).reverse.dropWhile
      (fun c => c.isWhitespace)).reverse⟩

/-- JS `s.substring(0, n)` on the character-list model. -/
def jsSubstring0 (s : String) (n : Nat) : String := ⟨s.data.take n⟩

/-- JS `s.length` on the character-list model. -/
def jsLen (s : String) : Nat := s.data.length

/-- The profile stored in `player.data` once a client joins
(`handlePlayerJoin`): `{...playerData, id: playerId, joinTime: Date.now()}`.
The modelled client-suppliable fields are `nickname` and `username` (the
fields the server reads); `x`/`y` are written by `handlePlayerMove`. -/
structure Profile where
  id : PlayerId
  nickname : Option String
  username : Option String
  joinTime : Nat
  x : Option ℚ
  y : Option ℚ
deriving DecidableEq

/-- The client-supplied `player_join` payload: it may carry its own `id`
(which the server discards), and the profile fields the server reads. -/
structure JoinData where
  cid : Option PlayerId
  nickname : Option String
  username : Option String
deriving DecidableEq

/-- The `chat_message` payload: `text` is `none` when the field is absent. -/
structure ChatData where
  text : Option String
deriving DecidableEq

/-- The `player_move` payload: `x` / `y` are dynamic JS values. -/
structure MoveData where
  x : JVal
  y : JVal
deriving DecidableEq

/-- One entry of `this.players`: the per-connection session state created in
`handleNewConnection` (the `ip` field is never read by the core and is not
modelled). -/
structure Player where
  id : PlayerId
  wsOpen : Bool
  data : Option Profile
  location : String
  lastActivity : Nat
deriving DecidableEq

/-- The registry `this.players`, as an insertion-ordered association list
(the JS `Map` keyed by `player.id`). -/
abbrev ServerState := List Player

/-- Outbound wire messages (the argument of `sendToPlayer`). -/
inductive OutMsg where
  | connectionEstablished (playerId : PlayerId)
  | playerList (profiles : List Profile)
  | playerJoined (profile : Profile)
  | playerLeft (id : PlayerId) (nickname : Option String)
  | playerMoved (id : PlayerId) (x y : ℚ)
  | chatMessage (playerId : PlayerId) (username nickname : Option String)
      (text : String) (timestamp : Nat)
  | error (message : String)
  | serverShutdown
deriving DecidableEq

/-- One delivered outbound message: recipient id and message. -/
abbrev Send := PlayerId × OutMsg

/-- A parsed inbound envelope, after `JSON.parse` and the switch on
`message.type`.  `chatMessage none` / `playerMove none` model an envelope of
that type whose `data` field is `undefined`/`null` (reading a property of it
throws).  `unknown t` models any type string outside the four handled ones. -/
inductive Envelope where
  | playerJoin (d : JoinData)
  | playerLeave
  | chatMessage (d : Option ChatData)
  | playerMove (d : Option MoveData)
  | unknown (type_ : String)
deriving DecidableEq

/-- A raw inbound message: either it fails `JSON.parse` (`malformed`) or it
parses to an envelope. -/
inductive Inbound where
  | malformed
  | msg (env : Envelope)
deriving DecidableEq

/-- `this.players.get(playerId)`. -/
def findPlayer (s : ServerState) (pid : PlayerId) : Option Player :=
  s.find? (fun p => p.id == pid)

/-- `this.players.delete(playerId)` (keys are unique in reachable states). -/
def removePlayer (s : ServerState) (pid : PlayerId) : ServerState :=
  s.filter (fun p => !(p.id == pid))

/-- `this.players.set(p.id, p)`: replace in place if the key exists,
append otherwise (JS `Map` insertion-order semantics). -/
def mapSet (s : ServerState) (p : Player) : ServerState :=
  if s.any (fun q => q.id == p.id) then
    s.map (fun q => if q.id == p.id then p else q)
  else s ++ [p]

/-- In-place mutation of the session found by `this.players.get(pid)`
(JS objects are mutated through the map's reference). -/
def updatePlayer (s : ServerState) (pid : PlayerId) (f : Player → Player) :
    ServerState :=
  s.map (fun p => if p.id == pid then f p else p)

/-- `sendToPlayer`: deliver only when the player exists and its transport is
open (`player.ws.readyState === WebSocket.OPEN`); the model assumes
`ws.send` does not throw. -/
def sendToPlayer (s : ServerState) (pid : PlayerId) (m : OutMsg) : List Send :=
  match findPlayer s pid with
  | some p => if p.wsOpen then [(pid, m)] else []
  | none => []

/-- `getPlayersInLocation(location, excludePlayerId)`: all sessions whose id
is not the excluded one, whose `location` matches, and whose `data` is set. -/
def getPlayersInLocation (s : ServerState) (loc : String)
    (excl : Option PlayerId) : List Player :=
  s.filter (fun p => !(excl == some p.id) && p.location == loc && p.data.isSome)

/-- `broadcastToLocation(location, message, excludePlayerId)`: resolve the
recipient set with `getPlayersInLocation` and `sendToPlayer` each. -/
def broadcastToLocation (s : ServerState) (loc : String) (m : OutMsg)
    (excl : Option PlayerId) : List Send :=
  (getPlayersInLocation s loc excl).foldr
    (fun p acc => sendToPlayer s p.id m ++ acc) []

/-- `{...playerData, id: playerId, joinTime: now}` — the client-supplied
`id` (`d.cid`) is discarded, the server-assigned one is authoritative. -/
def mkProfile (pid : PlayerId) (d : JoinData) (now : Nat) : Profile :=
  { id := pid, nickname := d.nickname, username := d.username,
    joinTime := now, x := none, y := none }

/-- `handlePlayerJoin(playerId, playerData)`. -/
def handlePlayerJoin (s : ServerState) (pid : PlayerId) (d : JoinData)
    (now : Nat) : ServerState × List Send :=
  match findPlayer s pid with
  | none => (s, [])
  | some p =>
    let prof := mkProfile pid d now
    let s' := updatePlayer s pid (fun q => { q with data := some prof })
    let others := getPlayersInLocation s' p.location (some pid)
    let listSend :=
      sendToPlayer s' pid (OutMsg.playerList (others.filterMap (fun q => q.data)))
    let joined :=
      broadcastToLocation s' p.location (OutMsg.playerJoined prof) (some pid)
    (s', listSend ++ joined)

/-- `handlePlayerLeave(playerId)`. -/
def handlePlayerLeave (s : ServerState) (pid : PlayerId) :
    ServerState × List Send :=
  match findPlayer s pid with
  | none => (s, [])
  | some p =>
    match p.data with
    | none => (s, [])
    | some d =>
      (removePlayer s pid,
       broadcastToLocation s p.location (OutMsg.playerLeft pid d.nickname)
         (some pid))

/-- `handlePlayerDisconnect(playerId)`. -/
def handlePlayerDisconnect (s : ServerState) (pid : PlayerId) :
    ServerState × List Send :=
  match findPlayer s pid with
  | none => (s, [])
  | some p =>
    let sends :=
      match p.data with
      | some d =>
        broadcastToLocation s p.location (OutMsg.playerLeft pid d.nickname)
          (some pid)
      | none => []
    (removePlayer s pid, sends)

/-- `handleChatMessage(playerId, messageData)`.  `Except.error ()` models the
`TypeError` thrown by `messageData.text` when `data` is `undefined`/`null`
(only reachable after the active-session guard). -/
def handleChatMessage (s : ServerState) (pid : PlayerId) (od : Option ChatData)
    (now : Nat) : Except Unit (ServerState × List Send) :=
  match findPlayer s pid with
  | none => .ok (s, [])
  | some p =>
    match p.data with
    | none => .ok (s, [])
    | some prof =>
      match od with
      | none => .error ()
      | some cd =>
        match cd.text with
        | none => .ok (s, [])
        | some t =>
          if t = "" then .ok (s, [])
          else if jsLen (jsTrim t) = 0 then .ok (s, [])
          else
            let text := jsSubstring0 (jsTrim t) 200
            .ok (s, broadcastToLocation s p.location
              (OutMsg.chatMessage pid prof.username prof.nickname text now)
              (some pid))

/-- `handlePlayerMove(playerId, moveData)`.  `Except.error ()` models the
`TypeError` thrown by `moveData.x` when `data` is `undefined`/`null`. -/
def handlePlayerMove (s : ServerState) (pid : PlayerId)
    (od : Option MoveData) : Except Unit (ServerState × List Send) :=
  match findPlayer s pid with
  | none => .ok (s, [])
  | some p =>
    match p.data with
    | none => .ok (s, [])
    | some _ =>
      match od with
      | none => .error ()
      | some md =>
        let x := clampMove md.x
        let y := clampMove md.y
        let s' := updatePlayer s pid (fun q =>
          { q with data := q.data.map (fun pr => { pr with x := some x, y := some y }) })
        .ok (s', broadcastToLocation s' p.location
          (OutMsg.playerMoved pid x y) (some pid))

/-- `player.lastActivity = Date.now()` (done for every successfully parsed
inbound message before dispatch). -/
def touch (s : ServerState) (pid : PlayerId) (now : Nat) : ServerState :=
  updatePlayer s pid (fun p => { p with lastActivity := now })

/-- `handlePlayerMessage(playerId, rawMessage)`: the `try`/`switch`/`catch`
dispatcher.  A `JSON.parse` failure or a handler `TypeError` lands in the
catch branch, which sends one `"Invalid message format"` error reply. -/
def handlePlayerMessage (s : ServerState) (pid : PlayerId) (raw : Inbound)
    (now : Nat) : ServerState × List Send :=
  match raw with
  | .malformed => (s, sendToPlayer s pid (OutMsg.error "Invalid message format"))
  | .msg env =>
    match findPlayer s pid with
    | none => (s, [])
    | some _ =>
      let s1 := touch s pid now
      match env with
      | .playerJoin d => handlePlayerJoin s1 pid d now
      | .playerLeave => handlePlayerLeave s1 pid
      | .chatMessage od =>
        match handleChatMessage s1 pid od now with
        | .ok r => r
        | .error _ =>
          (s1, sendToPlayer s1 pid (OutMsg.error "Invalid message format"))
      | .playerMove od =>
        match handlePlayerMove s1 pid od with
        | .ok r => r
        | .error _ =>
          (s1, sendToPlayer s1 pid (OutMsg.error "Invalid message format"))
      | .unknown _ =>
        (s1, sendToPlayer s1 pid (OutMsg.error "Unknown message type"))

/-- `handleNewConnection`: fresh session with `data: null`,
`location: 'Park'`, an open transport, and the welcome message. -/
def handleNewConnection (s : ServerState) (pid : PlayerId) (now : Nat) :
    ServerState × List Send :=
  let player : Player :=
    { id := pid, wsOpen := true, data := none, location := "Park",
      lastActivity := now }
  let s' := mapSet s player
  (s', sendToPlayer s' pid (OutMsg.connectionEstablished pid))

/-- The reaper inactivity threshold: `5 * 60 * 1000` ms. -/
def reapTimeoutMs : Nat := 5 * 60 * 1000

/-- The eviction condition of `cleanupDisconnectedPlayers`:
`player.ws.readyState !== WebSocket.OPEN || (now - player.lastActivity) > timeout`. -/
def staleCond (now : Nat) (p : Player) : Bool :=
  !p.wsOpen || decide (now - p.lastActivity > reapTimeoutMs)

/-- One loop iteration of `cleanupDisconnectedPlayers`. -/
def reapStep (now : Nat) (acc : ServerState × List Send) (p : Player) :
    ServerState × List Send :=
  if staleCond now p then
    let r := handlePlayerDisconnect acc.1 p.id
    (r.1, acc.2 ++ r.2)
  else acc

/-- `cleanupDisconnectedPlayers()` run at time `now`: visit every session of
the sweep-start registry and evict the stale ones via
`handlePlayerDisconnect`. -/
def cleanupDisconnectedPlayers (s : ServerState) (now : Nat) :
    ServerState × List Send :=
  s.foldl (reapStep now) (s, [])

/-- `logServerStats()` summarization: total and active session counts
(read-only). -/
def serverStats (s : ServerState) : Nat × Nat :=
  (s.length, (s.filter (fun p => p.data.isSome)).length)

/-- The operations that can touch the registry: a new connection, an inbound
message, a transport close/error event (both run `handlePlayerDisconnect`),
the transport silently leaving the OPEN state (the environment transition
that `cleanupDisconnectedPlayers` tests for), a reaper sweep, and the
read-only stats report. -/
inductive Op where
  | connect (pid : PlayerId) (now : Nat)
  | message (pid : PlayerId) (raw : Inbound) (now : Nat)
  | closeEvent (pid : PlayerId)
  | transportDown (pid : PlayerId)
  | reap (now : Nat)
  | stats
deriving DecidableEq

/-- Apply one operation: next registry state and emitted sends. -/
def applyOp (s : ServerState) : Op → ServerState × List Send
  | .connect pid now => handleNewConnection s pid now
  | .message pid raw now => handlePlayerMessage s pid raw now
  | .closeEvent pid => handlePlayerDisconnect s pid
  | .transportDown pid =>
    (updatePlayer s pid (fun p => { p with wsOpen := false }), [])
  | .reap now => cleanupDisconnectedPlayers s now
  | .stats => (s, [])

/-- Registry states reachable from the empty registry by any sequence of
operations. -/
inductive Reachable : ServerState → Prop where
  | init : Reachable []
  | step (s : ServerState) (op : Op) (h : Reachable s) :
      Reachable (applyOp s op).1

/-- The four location-scoped broadcast message types. -/
def isLocBroadcast : OutMsg → Bool
  | .playerJoined _ => true
  | .playerLeft _ _ => true
  | .playerMoved _ _ _ => true
  | .chatMessage _ _ _ _ _ => true
  | _ => false

/-- The session id a broadcast message names as its acting player. -/
def actorOf : OutMsg → Option PlayerId
  | .playerJoined prof => some prof.id
  | .playerLeft i _ => some i
  | .playerMoved i _ _ => some i
  | .chatMessage i _ _ _ _ => some i
  | _ => none

/-- All transports in the registry are open. -/
def allOpen (s : ServerState) : Bool := s.all (fun p => p.wsOpen)

/-- Spec-side characterisation (from the claims' words, for comparison with
the code's behaviour): `r` is "a session in the Registry whose profile is
set, whose location equals the argument, and whose id is not the excluded
id". -/
def specRecipientLoc (s : ServerState) (loc : String) (excl : Option PlayerId)
    (r : PlayerId) : Bool :=
  s.any (fun w => w.id == r && w.data.isSome && w.location == loc &&
    !(excl == some w.id))

/-- Spec-side characterisation (from claim C5's words): `prof` is the profile
of an active session other than `pid` in location `loc`. -/
def specListedProfile (s : ServerState) (pid : PlayerId) (loc : String)
    (prof : Profile) : Bool :=
  s.any (fun w => !(w.id == pid) && w.location == loc && w.data == some prof)

/-- Spec-side characterisation (from claim C5's words): session `pid` is
alone in location `loc` — no other active session shares the location. -/
def specAlone (s : ServerState) (pid : PlayerId) (loc : String) : Bool :=
  s.all (fun w => w.id == pid || !(w.location == loc) || !(w.data.isSome))

/-- Spec-side characterisation (from claim C9's words): a reaper `player_left`
naming `aid` is delivered to `r` exactly as an abrupt disconnect would —
`aid` belongs to a profile-set session and `r` to a profile-set session in
the same location. -/
def specReapLeft (s : ServerState) (aid r : PlayerId) : Bool :=
  s.any (fun wa => wa.id == aid && wa.data.isSome &&
    s.any (fun wr => wr.id == r && wr.data.isSome &&
      wr.location == wa.location))

/-! ## Registry lemmas -/

lemma findPlayer_some {s : ServerState} {pid : PlayerId} {p : Player}
    (h : findPlayer s pid = some p) : p ∈ s ∧ p.id = pid := by
  refine ⟨List.mem_of_find?_eq_some h, ?_⟩
  have := List.find?_some h
  simpa using this

lemma findPlayer_eq_none {s : ServerState} {pid : PlayerId} :
    findPlayer s pid = none ↔ ∀ p ∈ s, p.id ≠ pid := by
  unfold findPlayer
  rw [List.find?_eq_none]
  simp

lemma mem_removePlayer {s : ServerState} {pid : PlayerId} {w : Player} :
    w ∈ removePlayer s pid ↔ w ∈ s ∧ w.id ≠ pid := by
  unfold removePlayer
  rw [List.mem_filter]
  simp

lemma findPlayer_removePlayer_self (s : ServerState) (pid : PlayerId) :
    findPlayer (removePlayer s pid) pid = none := by
  rw [findPlayer_eq_none]
  intro p hp
  exact (mem_removePlayer.mp hp).2

lemma mem_updatePlayer {s : ServerState} {pid : PlayerId} {f : Player → Player}
    {w : Player} :
    w ∈ updatePlayer s pid f ↔ ∃ q ∈ s, w = if q.id == pid then f q else q := by
  unfold updatePlayer
  rw [List.mem_map]
  constructor
  · rintro ⟨q, hq, h⟩
    exact ⟨q, hq, h.symm⟩
  · rintro ⟨q, hq, h⟩
    exact ⟨q, hq, h.symm⟩

lemma mem_updatePlayer_of_ne {s : ServerState} {pid : PlayerId}
    {f : Player → Player} {w : Player}
    (hw : w ∈ updatePlayer s pid f) (hne : w.id ≠ pid)
    (hid : ∀ q, (f q).id = q.id) : w ∈ s := by
  obtain ⟨q, hq, h⟩ := mem_updatePlayer.mp hw
  cases hc : (q.id == pid) with
  | true =>
    rw [hc] at h
    simp at h
    subst h
    exact absurd (by rw [hid q]; exact beq_iff_eq.mp hc) hne
  | false =>
    rw [hc] at h
    simp at h
    exact h ▸ hq

lemma mem_updatePlayer_of_ne' {s : ServerState} {pid : PlayerId}
    {f : Player → Player} {w : Player} (hw : w ∈ s) (hne : w.id ≠ pid) :
    w ∈ updatePlayer s pid f := by
  rw [mem_updatePlayer]
  refine ⟨w, hw, ?_⟩
  rw [if_neg ?_]
  simpa using hne

lemma updatePlayer_cons {a : Player} {t : List Player} {pid : PlayerId}
    {f : Player → Player} :
    updatePlayer (a :: t) pid f
      = (if (a.id == pid) = true then f a else a) :: updatePlayer t pid f := rfl

lemma findPlayer_updatePlayer_self {s : ServerState} {pid : PlayerId}
    {f : Player → Player} (hid : ∀ q, (f q).id = q.id) :
    findPlayer (updatePlayer s pid f) pid = (findPlayer s pid).map f := by
  induction s with
  | nil => rfl
  | cons a t ih =>
    unfold findPlayer at ih ⊢
    rw [updatePlayer_cons]
    cases hc : (a.id == pid) with
    | true =>
      have h1 : ((f a).id == pid) = true := by rw [hid a]; exact hc
      rw [if_pos rfl]
      simp only [List.find?_cons, h1, hc]
      rfl
    | false =>
      rw [if_neg (by simp)]
      simp only [List.find?_cons, hc]
      exact ih

lemma findPlayer_updatePlayer_ne {s : ServerState} {pid pid' : PlayerId}
    {f : Player → Player} (hid : ∀ q, (f q).id = q.id) (hne : pid' ≠ pid) :
    findPlayer (updatePlayer s pid f) pid' = findPlayer s pid' := by
  induction s with
  | nil => rfl
  | cons a t ih =>
    unfold findPlayer at ih ⊢
    rw [updatePlayer_cons]
    cases hc : (a.id == pid) with
    | true =>
      have ha : a.id = pid := beq_iff_eq.mp hc
      have h1 : ((f a).id == pid') = false := by
        rw [hid a, ha]
        exact beq_eq_false_iff_ne.mpr fun h => hne h.symm
      have h2 : (a.id == pid') = false := by
        rw [ha]
        exact beq_eq_false_iff_ne.mpr fun h => hne h.symm
      rw [if_pos rfl]
      simp only [List.find?_cons, h1, h2]
      exact ih
    | false =>
      rw [if_neg (by simp)]
      cases hc' : (a.id == pid') with
      | true => simp only [List.find?_cons, hc']
      | false =>
        simp only [List.find?_cons, hc']
        exact ih

lemma ids_updatePlayer {s : ServerState} {pid : PlayerId}
    {f : Player → Player} (hid : ∀ q, (f q).id = q.id) :
    (updatePlayer s pid f).map Player.id = s.map Player.id := by
  unfold updatePlayer
  rw [List.map_map]
  apply List.map_congr_left
  intro a _
  by_cases hc : a.id = pid
  · simp [hc, hid a]
  · simp [hc]

lemma mem_getPlayersInLocation {s : ServerState} {loc : String}
    {excl : Option PlayerId} {p : Player} :
    p ∈ getPlayersInLocation s loc excl ↔
      p ∈ s ∧ excl ≠ some p.id ∧ p.location = loc ∧ p.data.isSome = true := by
  unfold getPlayersInLocation
  rw [List.mem_filter]
  simp [and_assoc]

lemma mem_sendToPlayer {s : ServerState} {pid : PlayerId} {m : OutMsg}
    {r : PlayerId} {m' : OutMsg} :
    (r, m') ∈ sendToPlayer s pid m ↔
      r = pid ∧ m' = m ∧ ∃ w, findPlayer s pid = some w ∧ w.wsOpen = true := by
  unfold sendToPlayer
  cases h : findPlayer s pid with
  | none => simp
  | some w =>
    cases hw : w.wsOpen with
    | true => simp [hw, Prod.ext_iff, and_comm]
    | false => simp [hw]

lemma mem_foldr_sends {s : ServerState} {m : OutMsg} {ps : List Player}
    {r : PlayerId} {m' : OutMsg} :
    (r, m') ∈ ps.foldr (fun p acc => sendToPlayer s p.id m ++ acc) [] ↔
      ∃ p ∈ ps, (r, m') ∈ sendToPlayer s p.id m := by
  induction ps with
  | nil => simp
  | cons a t ih => simp [ih]

lemma mem_broadcast {s : ServerState} {loc : String} {m : OutMsg}
    {excl : Option PlayerId} {r : PlayerId} {m' : OutMsg} :
    (r, m') ∈ broadcastToLocation s loc m excl ↔
      m' = m ∧ excl ≠ some r ∧
        (∃ w ∈ s, w.id = r ∧ w.location = loc ∧ w.data.isSome = true) ∧
        ∃ v, findPlayer s r = some v ∧ v.wsOpen = true := by
  unfold broadcastToLocation
  rw [mem_foldr_sends]
  constructor
  · rintro ⟨p, hp, hs⟩
    rw [mem_sendToPlayer] at hs
    obtain ⟨rfl, rfl, v, hv, hvo⟩ := hs
    rw [mem_getPlayersInLocation] at hp
    obtain ⟨hmem, hexcl, hloc, hdata⟩ := hp
    exact ⟨rfl, hexcl, ⟨p, hmem, rfl, hloc, hdata⟩, v, hv, hvo⟩
  · rintro ⟨rfl, hne, ⟨w, hw, rfl, hloc, hdata⟩, v, hv, hvo⟩
    refine ⟨w, ?_, ?_⟩
    · rw [mem_getPlayersInLocation]
      exact ⟨hw, hne, hloc, hdata⟩
    · rw [mem_sendToPlayer]
      exact ⟨rfl, rfl, v, hv, hvo⟩

lemma id_inj {s : ServerState} (hnd : (s.map Player.id).Nodup) {a b : Player}
    (ha : a ∈ s) (hb : b ∈ s) (h : a.id = b.id) : a = b := by
  induction s with
  | nil => cases ha
  | cons p t ih =>
    rw [List.map_cons, List.nodup_cons] at hnd
    rcases List.mem_cons.mp ha with rfl | ha' <;>
      rcases List.mem_cons.mp hb with rfl | hb'
    · rfl
    · exact absurd (h ▸ List.mem_map_of_mem Player.id hb') hnd.1
    · exact absurd (h ▸ List.mem_map_of_mem Player.id ha') hnd.1
    · exact ih hnd.2 ha' hb'

lemma findPlayer_setData_self {s : ServerState} {pid : PlayerId}
    {v : Option Profile} :
    findPlayer (updatePlayer s pid (fun q => { q with data := v })) pid
      = (findPlayer s pid).map (fun q => { q with data := v }) :=
  findPlayer_updatePlayer_self (fun _ => rfl)

lemma findPlayer_setData_ne {s : ServerState} {pid pid' : PlayerId}
    {v : Option Profile} (hne : pid' ≠ pid) :
    findPlayer (updatePlayer s pid (fun q => { q with data := v })) pid'
      = findPlayer s pid' :=
  findPlayer_updatePlayer_ne (fun _ => rfl) hne

lemma findPlayer_mapData_self {s : ServerState} {pid : PlayerId}
    {g : Profile → Profile} :
    findPlayer (updatePlayer s pid
        (fun q => { q with data := q.data.map g })) pid
      = (findPlayer s pid).map (fun q => { q with data := q.data.map g }) :=
  findPlayer_updatePlayer_self (fun _ => rfl)

lemma findPlayer_touch_self {s : ServerState} {pid : PlayerId} {now : Nat} :
    findPlayer (touch s pid now) pid
      = (findPlayer s pid).map (fun q => { q with lastActivity := now }) :=
  findPlayer_updatePlayer_self (fun _ => rfl)

lemma findPlayer_touch_ne {s : ServerState} {pid pid' : PlayerId} {now : Nat}
    (hne : pid' ≠ pid) :
    findPlayer (touch s pid now) pid' = findPlayer s pid' :=
  findPlayer_updatePlayer_ne (fun _ => rfl) hne

lemma findPlayer_of_mem {s : ServerState} {w : Player} {r : PlayerId}
    (hw : w ∈ s) (hid : w.id = r) :
    ∃ v, findPlayer s r = some v ∧ v ∈ s := by
  cases h : findPlayer s r with
  | none => exact absurd hid (findPlayer_eq_none.mp h w hw)
  | some v => exact ⟨v, rfl, List.mem_of_find?_eq_some h⟩

lemma specRecipientLoc_iff {s : ServerState} {loc : String}
    {excl : Option PlayerId} {r : PlayerId} :
    specRecipientLoc s loc excl r = true ↔
      ∃ w ∈ s, w.id = r ∧ w.data.isSome = true ∧ w.location = loc ∧
        excl ≠ some w.id := by
  unfold specRecipientLoc
  rw [List.any_eq_true]
  simp [and_assoc]

lemma allOpen_iff {s : ServerState} :
    allOpen s = true ↔ ∀ p ∈ s, p.wsOpen = true := by
  unfold allOpen
  rw [List.all_eq_true]

lemma specListedProfile_iff {s : ServerState} {pid : PlayerId} {loc : String}
    {prof : Profile} :
    specListedProfile s pid loc prof = true ↔
      ∃ w ∈ s, w.id ≠ pid ∧ w.location = loc ∧ w.data = some prof := by
  unfold specListedProfile
  rw [List.any_eq_true]
  simp [and_assoc]

lemma specAlone_iff {s : ServerState} {pid : PlayerId} {loc : String} :
    specAlone s pid loc = true ↔
      ∀ w ∈ s, w.id ≠ pid → w.location = loc → w.data = none := by
  unfold specAlone
  rw [List.all_eq_true]
  constructor
  · intro h w hw hne hloc
    have h2 := h w hw
    cases hd : w.data with
    | none => rfl
    | some pr =>
      exfalso
      simp [hne, hloc, hd] at h2
  · intro h w hw
    by_cases hne : w.id = pid
    · simp [hne]
    · by_cases hloc : w.location = loc
      · simp [h w hw hne hloc]
      · simp [hloc]

lemma clampMove_nonneg (v : JVal) : 0 ≤ clampMove v := by
  unfold clampMove jsMax jsMin
  split_ifs <;> linarith

lemma clampMove_le_100 (v : JVal) : clampMove v ≤ 100 := by
  unfold clampMove jsMax jsMin
  split_ifs <;> linarith

lemma clampMove_of_parse_none {v : JVal} (h : parseFloat v = none) :
    clampMove v = 0 := by
  unfold clampMove jsOrZero jsMax jsMin
  rw [h]
  norm_num

lemma allOpen_updatePlayer {s : ServerState} {pid : PlayerId}
    {f : Player → Player} (h : allOpen s = true)
    (hopen : ∀ q, (f q).wsOpen = q.wsOpen) :
    allOpen (updatePlayer s pid f) = true := by
  rw [allOpen_iff] at h ⊢
  intro w hw
  obtain ⟨q, hq, hw⟩ := mem_updatePlayer.mp hw
  cases hc : (q.id == pid) with
  | true =>
    rw [hc] at hw
    simp at hw
    rw [hw, hopen q]
    exact h q hq
  | false =>
    rw [hc] at hw
    simp at hw
    rw [hw]
    exact h q hq

lemma mem_getPlayersInLocation_setData {s : ServerState} {pid : PlayerId}
    {v : Option Profile} {loc : String} {w : Player} :
    w ∈ getPlayersInLocation
        (updatePlayer s pid (fun q => { q with data := v })) loc (some pid) ↔
      w ∈ getPlayersInLocation s loc (some pid) := by
  rw [mem_getPlayersInLocation, mem_getPlayersInLocation]
  constructor
  · rintro ⟨hw, hne, hloc, hdata⟩
    have hni : w.id ≠ pid := fun h => hne (congrArg some h.symm)
    exact ⟨mem_updatePlayer_of_ne hw hni (fun _ => rfl), hne, hloc, hdata⟩
  · rintro ⟨hw, hne, hloc, hdata⟩
    have hni : w.id ≠ pid := fun h => hne (congrArg some h.symm)
    exact ⟨mem_updatePlayer_of_ne' hw hni, hne, hloc, hdata⟩

lemma joinPayload_iff {s : ServerState} {pid : PlayerId} {v : Option Profile}
    {loc : String} {prof' : Profile} :
    prof' ∈ (getPlayersInLocation
        (updatePlayer s pid (fun q => { q with data := v })) loc
        (some pid)).filterMap (fun q => q.data) ↔
      specListedProfile s pid loc prof' = true := by
  rw [List.mem_filterMap, specListedProfile_iff]
  constructor
  · rintro ⟨w, hw, hdata⟩
    rw [mem_getPlayersInLocation_setData, mem_getPlayersInLocation] at hw
    obtain ⟨hmem, hne, hloc, -⟩ := hw
    exact ⟨w, hmem, fun h => hne (congrArg some h.symm), hloc, hdata⟩
  · rintro ⟨w, hmem, hne, hloc, hdata⟩
    refine ⟨w, ?_, hdata⟩
    rw [mem_getPlayersInLocation_setData, mem_getPlayersInLocation]
    exact ⟨hmem, fun h => hne (Option.some.inj h).symm, hloc, by simp [hdata]⟩

lemma joinPayload_nil {s : ServerState} {pid : PlayerId} {v : Option Profile}
    {loc : String} (halone : specAlone s pid loc = true) :
    (getPlayersInLocation
        (updatePlayer s pid (fun q => { q with data := v })) loc
        (some pid)).filterMap (fun q => q.data) = [] := by
  have hnil : getPlayersInLocation
      (updatePlayer s pid (fun q => { q with data := v })) loc (some pid)
      = [] := by
    rw [List.eq_nil_iff_forall_not_mem]
    intro w hw
    rw [mem_getPlayersInLocation_setData, mem_getPlayersInLocation] at hw
    obtain ⟨hmem, hne, hloc, hdata⟩ := hw
    have hni : w.id ≠ pid := fun h => hne (congrArg some h.symm)
    rw [specAlone_iff.mp halone w hmem hni hloc] at hdata
    exact absurd hdata (by simp)
  rw [hnil]
  rfl

/-! ## Claim theorems -/

/-- C1: for every call to `broadcastToLocation(location, message, excludeId)`,
the recipient set resolved by `getPlayersInLocation` is exactly the sessions
in the Registry whose profile is set, whose `location` equals the argument,
and whose id is not the excluded id; every delivered send goes to such a
session (and, with open transports, to all of them); the excluded (acting)
session never receives the broadcast, and a session in a different location
(e.g. "Beach" vs "Park") never receives it. -/
theorem c1_broadcast_recipients (s : ServerState) (loc : String)
    (m m' : OutMsg) (excl : Option PlayerId) (p q : Player) (r eid : PlayerId)
    (hnd : (s.map Player.id).Nodup) :
    (p ∈ getPlayersInLocation s loc excl ↔
      p ∈ s ∧ p.data.isSome = true ∧ p.location = loc ∧ excl ≠ some p.id) ∧
    ((r, m') ∈ broadcastToLocation s loc m excl →
      m' = m ∧ excl ≠ some r ∧ specRecipientLoc s loc excl r = true) ∧
    (allOpen s = true →
      ((r, m) ∈ broadcastToLocation s loc m excl ↔
        specRecipientLoc s loc excl r = true)) ∧
    (q ∈ s → q.location ≠ loc → (q.id, m') ∉ broadcastToLocation s loc m excl) ∧
    (excl = some eid → (eid, m') ∉ broadcastToLocation s loc m excl) := by
  refine ⟨?_, ?_, ?_, ?_, ?_⟩
  · rw [mem_getPlayersInLocation]
    tauto
  · intro h
    rw [mem_broadcast] at h
    obtain ⟨rfl, hne, ⟨w, hw, hwid, hwloc, hwdata⟩, _⟩ := h
    refine ⟨rfl, hne, specRecipientLoc_iff.mpr ⟨w, hw, hwid, hwdata, hwloc, ?_⟩⟩
    rw [hwid]
    exact hne
  · intro hall
    rw [mem_broadcast, specRecipientLoc_iff]
    constructor
    · rintro ⟨-, hne, ⟨w, hw, hwid, hwloc, hwdata⟩, -⟩
      refine ⟨w, hw, hwid, hwdata, hwloc, ?_⟩
      rw [hwid]
      exact hne
    · rintro ⟨w, hw, hwid, hwdata, hwloc, hexcl⟩
      rw [hwid] at hexcl
      obtain ⟨v, hv, hvm⟩ := findPlayer_of_mem hw hwid
      exact ⟨rfl, hexcl, ⟨w, hw, hwid, hwloc, hwdata⟩, v, hv,
        allOpen_iff.mp hall v hvm⟩
  · intro hq hqloc h
    rw [mem_broadcast] at h
    obtain ⟨-, -, ⟨w, hw, hwid, hwloc, -⟩, -⟩ := h
    exact hqloc ((id_inj hnd hw hq hwid ▸ hwloc : q.location = loc))
  · rintro rfl h
    rw [mem_broadcast] at h
    exact h.2.1 rfl

/-- Witness for C1 at a concrete three-session registry: "a" and "b" active
in "Park", "c" active in "Beach"; a broadcast to "Park" excluding "a". -/
theorem c1_broadcast_recipients_witness :
    (Player.mk "b" true (some (Profile.mk "b" (some "B") none 0 none none))
        "Park" 0 ∈
      getPlayersInLocation
        [Player.mk "a" true (some (Profile.mk "a" (some "A") none 0 none none))
            "Park" 0,
          Player.mk "b" true (some (Profile.mk "b" (some "B") none 0 none none))
            "Park" 0,
          Player.mk "c" true (some (Profile.mk "c" (some "C") none 0 none none))
            "Beach" 0] "Park" (some "a") ↔
      Player.mk "b" true (some (Profile.mk "b" (some "B") none 0 none none))
          "Park" 0 ∈
        [Player.mk "a" true (some (Profile.mk "a" (some "A") none 0 none none))
            "Park" 0,
          Player.mk "b" true (some (Profile.mk "b" (some "B") none 0 none none))
            "Park" 0,
          Player.mk "c" true (some (Profile.mk "c" (some "C") none 0 none none))
            "Beach" 0] ∧
        (Player.mk "b" true (some (Profile.mk "b" (some "B") none 0 none none))
            "Park" 0).data.isSome = true ∧
        (Player.mk "b" true (some (Profile.mk "b" (some "B") none 0 none none))
            "Park" 0).location = "Park" ∧
        (some "a" : Option PlayerId) ≠ some (Player.mk "b" true
          (some (Profile.mk "b" (some "B") none 0 none none)) "Park" 0).id) ∧
    (("b", OutMsg.playerLeft "a" (some "A")) ∈
        broadcastToLocation
          [Player.mk "a" true (some (Profile.mk "a" (some "A") none 0 none none))
              "Park" 0,
            Player.mk "b" true (some (Profile.mk "b" (some "B") none 0 none none))
              "Park" 0,
            Player.mk "c" true (some (Profile.mk "c" (some "C") none 0 none none))
              "Beach" 0] "Park" (OutMsg.playerLeft "a" (some "A")) (some "a") →
      OutMsg.playerLeft "a" (some "A") = OutMsg.playerLeft "a" (some "A") ∧
        (some "a" : Option PlayerId) ≠ some "b" ∧
        specRecipientLoc
          [Player.mk "a" true (some (Profile.mk "a" (some "A") none 0 none none))
              "Park" 0,
            Player.mk "b" true (some (Profile.mk "b" (some "B") none 0 none none))
              "Park" 0,
            Player.mk "c" true (some (Profile.mk "c" (some "C") none 0 none none))
              "Beach" 0] "Park" (some "a") "b" = true) ∧
    (allOpen
        [Player.mk "a" true (some (Profile.mk "a" (some "A") none 0 none none))
            "Park" 0,
          Player.mk "b" true (some (Profile.mk "b" (some "B") none 0 none none))
            "Park" 0,
          Player.mk "c" true (some (Profile.mk "c" (some "C") none 0 none none))
            "Beach" 0] = true →
      (("b", OutMsg.playerLeft "a" (some "A")) ∈
          broadcastToLocation
            [Player.mk "a" true
                (some (Profile.mk "a" (some "A") none 0 none none)) "Park" 0,
              Player.mk "b" true
                (some (Profile.mk "b" (some "B") none 0 none none)) "Park" 0,
              Player.mk "c" true
                (some (Profile.mk "c" (some "C") none 0 none none)) "Beach" 0]
            "Park" (OutMsg.playerLeft "a" (some "A")) (some "a") ↔
        specRecipientLoc
          [Player.mk "a" true (some (Profile.mk "a" (some "A") none 0 none none))
              "Park" 0,
            Player.mk "b" true (some (Profile.mk "b" (some "B") none 0 none none))
              "Park" 0,
            Player.mk "c" true (some (Profile.mk "c" (some "C") none 0 none none))
              "Beach" 0] "Park" (some "a") "b" = true)) ∧
    (Player.mk "c" true (some (Profile.mk "c" (some "C") none 0 none none))
          "Beach" 0 ∈
        [Player.mk "a" true (some (Profile.mk "a" (some "A") none 0 none none))
            "Park" 0,
          Player.mk "b" true (some (Profile.mk "b" (some "B") none 0 none none))
            "Park" 0,
          Player.mk "c" true (some (Profile.mk "c" (some "C") none 0 none none))
            "Beach" 0] →
      (Player.mk "c" true (some (Profile.mk "c" (some "C") none 0 none none))
          "Beach" 0).location ≠ "Park" →
      ((Player.mk "c" true (some (Profile.mk "c" (some "C") none 0 none none))
          "Beach" 0).id, OutMsg.playerLeft "a" (some "A")) ∉
        broadcastToLocation
          [Player.mk "a" true (some (Profile.mk "a" (some "A") none 0 none none))
              "Park" 0,
            Player.mk "b" true (some (Profile.mk "b" (some "B") none 0 none none))
              "Park" 0,
            Player.mk "c" true (some (Profile.mk "c" (some "C") none 0 none none))
              "Beach" 0] "Park" (OutMsg.playerLeft "a" (some "A")) (some "a")) ∧
    ((some "a" : Option PlayerId) = some "a" →
      ("a", OutMsg.playerLeft "a" (some "A")) ∉
        broadcastToLocation
          [Player.mk "a" true (some (Profile.mk "a" (some "A") none 0 none none))
              "Park" 0,
            Player.mk "b" true (some (Profile.mk "b" (some "B") none 0 none none))
              "Park" 0,
            Player.mk "c" true (some (Profile.mk "c" (some "C") none 0 none none))
              "Beach" 0] "Park" (OutMsg.playerLeft "a" (some "A")) (some "a")) :=
  c1_broadcast_recipients _ "Park" (OutMsg.playerLeft "a" (some "A"))
    (OutMsg.playerLeft "a" (some "A")) (some "a") _ _ "b" "a" (by decide)

/-- C3: for a `player_move` from an active session, the stored position is
the clamped pair (each coordinate in `[0, 100]`, unparsable values default
to `0`), and the `player_moved` broadcast carries exactly those clamped
values, excluding the mover. -/
theorem c3_move_clamped (s : ServerState) (pid : PlayerId) (md : MoveData)
    (p : Player) (prof : Profile) (s' : ServerState) (outs : List Send)
    (r' : PlayerId) (m' : OutMsg)
    (h1 : findPlayer s pid = some p) (h2 : p.data = some prof)
    (h3 : handlePlayerMove s pid (some md) = .ok (s', outs)) :
    (0 ≤ clampMove md.x ∧ clampMove md.x ≤ 100 ∧
      0 ≤ clampMove md.y ∧ clampMove md.y ≤ 100) ∧
    (parseFloat md.x = none → clampMove md.x = 0) ∧
    (parseFloat md.y = none → clampMove md.y = 0) ∧
    findPlayer s' pid = some { p with data := some ({ prof with
      x := some (clampMove md.x), y := some (clampMove md.y) }) } ∧
    ((r', m') ∈ outs →
      m' = OutMsg.playerMoved pid (clampMove md.x) (clampMove md.y) ∧
        r' ≠ pid) := by
  simp only [handlePlayerMove, h1, h2] at h3
  rw [Except.ok.injEq, Prod.mk.injEq] at h3
  obtain ⟨hs', houts⟩ := h3
  subst hs'
  subst houts
  refine ⟨⟨clampMove_nonneg md.x, clampMove_le_100 md.x,
    clampMove_nonneg md.y, clampMove_le_100 md.y⟩,
    fun h => clampMove_of_parse_none h, fun h => clampMove_of_parse_none h,
    ?_, ?_⟩
  · rw [findPlayer_mapData_self, h1]
    simp [h2]
  · intro hmem
    rw [mem_broadcast] at hmem
    obtain ⟨hm, hne, -, -⟩ := hmem
    exact ⟨hm, fun h => hne (h ▸ rfl)⟩

/-- Witness for C3: session "a" (active, at "Park") moves with
`x = 150` (clamped to 100) and `y = "abc"` (unparsable, defaults to 0);
session "b" is the broadcast recipient. -/
theorem c3_move_clamped_witness :
    ((0 : ℚ) ≤ clampMove (JVal.num 150) ∧ clampMove (JVal.num 150) ≤ 100 ∧
      (0 : ℚ) ≤ clampMove (JVal.str "abc") ∧ clampMove (JVal.str "abc") ≤ 100) ∧
    (parseFloat (JVal.num 150) = none → clampMove (JVal.num 150) = 0) ∧
    (parseFloat (JVal.str "abc") = none → clampMove (JVal.str "abc") = 0) ∧
    findPlayer
      [Player.mk "a" true (some (Profile.mk "a" (some "A") none 0
        (some (clampMove (JVal.num 150))) (some (clampMove (JVal.str "abc")))))
        "Park" 0,
       Player.mk "b" true (some (Profile.mk "b" (some "B") none 0 none none))
        "Park" 0] "a"
      = some (Player.mk "a" true (some (Profile.mk "a" (some "A") none 0
          (some (clampMove (JVal.num 150)))
          (some (clampMove (JVal.str "abc"))))) "Park" 0) ∧
    (("b", OutMsg.playerMoved "a" 100 0) ∈
        [(("b" : PlayerId), OutMsg.playerMoved "a" 100 0)] →
      OutMsg.playerMoved "a" 100 0
          = OutMsg.playerMoved "a" (clampMove (JVal.num 150))
            (clampMove (JVal.str "abc")) ∧ ("b" : PlayerId) ≠ "a") :=
  c3_move_clamped
    [Player.mk "a" true (some (Profile.mk "a" (some "A") none 0 none none))
      "Park" 0,
     Player.mk "b" true (some (Profile.mk "b" (some "B") none 0 none none))
      "Park" 0]
    "a" (MoveData.mk (JVal.num 150) (JVal.str "abc"))
    (Player.mk "a" true (some (Profile.mk "a" (some "A") none 0 none none))
      "Park" 0)
    (Profile.mk "a" (some "A") none 0 none none)
    [Player.mk "a" true (some (Profile.mk "a" (some "A") none 0
      (some (clampMove (JVal.num 150))) (some (clampMove (JVal.str "abc")))))
      "Park" 0,
     Player.mk "b" true (some (Profile.mk "b" (some "B") none 0 none none))
      "Park" 0]
    [("b", OutMsg.playerMoved "a" 100 0)] "b" (OutMsg.playerMoved "a" 100 0)
    (by decide) (by decide) (by rfl)

/-- C4: for a `chat_message` from an active session, a text whose trim is
empty (or an absent text field) produces no broadcast and no error; a
non-empty trimmed text is broadcast as `chat_message` carrying the sender's
id, username and nickname, the trimmed text truncated to at most 200
characters (a 250-character trimmed text is delivered as exactly its first
200 characters) and the timestamp, to the sender's location excluding the
sender. -/
theorem c4_chat_truncation (s : ServerState) (pid : PlayerId) (now : Nat)
    (p : Player) (prof : Profile) (cd : ChatData) (t : String)
    (r' : PlayerId) (m' : OutMsg)
    (h1 : findPlayer s pid = some p) (h2 : p.data = some prof) :
    (cd.text = none → handleChatMessage s pid (some cd) now = .ok (s, [])) ∧
    (cd.text = some t → jsLen (jsTrim t) = 0 →
      handleChatMessage s pid (some cd) now = .ok (s, [])) ∧
    (cd.text = some t → jsLen (jsTrim t) ≠ 0 →
      handleChatMessage s pid (some cd) now
        = .ok (s, broadcastToLocation s p.location
            (OutMsg.chatMessage pid prof.username prof.nickname
              (jsSubstring0 (jsTrim t) 200) now) (some pid))) ∧
    jsLen (jsSubstring0 (jsTrim t) 200) ≤ 200 ∧
    (jsLen (jsTrim t) = 250 → jsLen (jsSubstring0 (jsTrim t) 200) = 200) ∧
    ((r', m') ∈ broadcastToLocation s p.location
        (OutMsg.chatMessage pid prof.username prof.nickname
          (jsSubstring0 (jsTrim t) 200) now) (some pid) →
      r' ≠ pid ∧
        m' = OutMsg.chatMessage pid prof.username prof.nickname
          (jsSubstring0 (jsTrim t) 200) now ∧
        specRecipientLoc s p.location (some pid) r' = true) := by
  refine ⟨?_, ?_, ?_, ?_, ?_, ?_⟩
  · intro ht
    simp only [handleChatMessage, h1, h2, ht]
  · intro ht hlen
    simp only [handleChatMessage, h1, h2, ht]
    by_cases he : t = ""
    · rw [if_pos he]
    · rw [if_neg he, if_pos hlen]
  · intro ht hlen
    have he : t ≠ "" := by
      intro h
      subst h
      exact hlen rfl
    simp only [handleChatMessage, h1, h2, ht]
    rw [if_neg he, if_neg hlen]
  · unfold jsLen jsSubstring0
    rw [List.length_take]
    exact min_le_left _ _
  · intro h250
    unfold jsLen at h250
    unfold jsLen jsSubstring0
    rw [List.length_take, h250]
    decide
  · intro hmem
    rw [mem_broadcast] at hmem
    obtain ⟨hm, hne, ⟨w, hw, hwid, hwloc, hwdata⟩, -⟩ := hmem
    refine ⟨fun h => hne (h ▸ rfl), hm,
      specRecipientLoc_iff.mpr ⟨w, hw, hwid, hwdata, hwloc, ?_⟩⟩
    rw [hwid]
    exact hne

/-- Witness for C4: sender "a" (active at "Park") with text `" hi "`;
recipient "b". -/
theorem c4_chat_truncation_witness :
    ((ChatData.mk (some " hi ")).text = none →
      handleChatMessage
        [Player.mk "a" true (some (Profile.mk "a" (some "A") (some "ua") 0
           none none)) "Park" 0,
         Player.mk "b" true (some (Profile.mk "b" (some "B") (some "ub") 0
           none none)) "Park" 0] "a" (some (ChatData.mk (some " hi "))) 7
        = .ok ([Player.mk "a" true (some (Profile.mk "a" (some "A") (some "ua")
            0 none none)) "Park" 0,
          Player.mk "b" true (some (Profile.mk "b" (some "B") (some "ub") 0
            none none)) "Park" 0], [])) ∧
    ((ChatData.mk (some " hi ")).text = some " hi " →
      jsLen (jsTrim " hi ") = 0 →
      handleChatMessage
        [Player.mk "a" true (some (Profile.mk "a" (some "A") (some "ua") 0
           none none)) "Park" 0,
         Player.mk "b" true (some (Profile.mk "b" (some "B") (some "ub") 0
           none none)) "Park" 0] "a" (some (ChatData.mk (some " hi "))) 7
        = .ok ([Player.mk "a" true (some (Profile.mk "a" (some "A") (some "ua")
            0 none none)) "Park" 0,
          Player.mk "b" true (some (Profile.mk "b" (some "B") (some "ub") 0
            none none)) "Park" 0], [])) ∧
    ((ChatData.mk (some " hi ")).text = some " hi " →
      jsLen (jsTrim " hi ") ≠ 0 →
      handleChatMessage
        [Player.mk "a" true (some (Profile.mk "a" (some "A") (some "ua") 0
           none none)) "Park" 0,
         Player.mk "b" true (some (Profile.mk "b" (some "B") (some "ub") 0
           none none)) "Park" 0] "a" (some (ChatData.mk (some " hi "))) 7
        = .ok ([Player.mk "a" true (some (Profile.mk "a" (some "A") (some "ua")
            0 none none)) "Park" 0,
          Player.mk "b" true (some (Profile.mk "b" (some "B") (some "ub") 0
            none none)) "Park" 0],
          broadcastToLocation
            [Player.mk "a" true (some (Profile.mk "a" (some "A") (some "ua") 0
               none none)) "Park" 0,
             Player.mk "b" true (some (Profile.mk "b" (some "B") (some "ub") 0
               none none)) "Park" 0] "Park"
            (OutMsg.chatMessage "a" (some "ua") (some "A")
              (jsSubstring0 (jsTrim " hi ") 200) 7) (some "a"))) ∧
    jsLen (jsSubstring0 (jsTrim " hi ") 200) ≤ 200 ∧
    (jsLen (jsTrim " hi ") = 250 →
      jsLen (jsSubstring0 (jsTrim " hi ") 200) = 200) ∧
    (("b", OutMsg.chatMessage "a" (some "ua") (some "A")
        (jsSubstring0 (jsTrim " hi ") 200) 7) ∈
        broadcastToLocation
          [Player.mk "a" true (some (Profile.mk "a" (some "A") (some "ua") 0
             none none)) "Park" 0,
           Player.mk "b" true (some (Profile.mk "b" (some "B") (some "ub") 0
             none none)) "Park" 0] "Park"
          (OutMsg.chatMessage "a" (some "ua") (some "A")
            (jsSubstring0 (jsTrim " hi ") 200) 7) (some "a") →
      ("b" : PlayerId) ≠ "a" ∧
        OutMsg.chatMessage "a" (some "ua") (some "A")
            (jsSubstring0 (jsTrim " hi ") 200) 7
          = OutMsg.chatMessage "a" (some "ua") (some "A")
            (jsSubstring0 (jsTrim " hi ") 200) 7 ∧
        specRecipientLoc
          [Player.mk "a" true (some (Profile.mk "a" (some "A") (some "ua") 0
             none none)) "Park" 0,
           Player.mk "b" true (some (Profile.mk "b" (some "B") (some "ub") 0
             none none)) "Park" 0] "Park" (some "a") "b" = true) :=
  c4_chat_truncation
    [Player.mk "a" true (some (Profile.mk "a" (some "A") (some "ua") 0
       none none)) "Park" 0,
     Player.mk "b" true (some (Profile.mk "b" (some "B") (some "ub") 0
       none none)) "Park" 0]
    "a" 7
    (Player.mk "a" true (some (Profile.mk "a" (some "A") (some "ua") 0
      none none)) "Park" 0)
    (Profile.mk "a" (some "A") (some "ua") 0 none none)
    (ChatData.mk (some " hi ")) " hi "
    "b" (OutMsg.chatMessage "a" (some "ua") (some "A")
      (jsSubstring0 (jsTrim " hi ") 200) 7)
    (by decide) (by decide)

/-- C7: disconnect-cleanup is idempotent: after one call the id is gone from
the Registry, a second call (or a call for an absent id) is a no-op with no
broadcast and no state change, and a disconnect of a never-joined session
removes it with no broadcast. -/
theorem c7_disconnect_idempotent (s : ServerState) (pid : PlayerId)
    (p : Player) :
    findPlayer (handlePlayerDisconnect s pid).1 pid = none ∧
    handlePlayerDisconnect (handlePlayerDisconnect s pid).1 pid
      = ((handlePlayerDisconnect s pid).1, []) ∧
    (findPlayer s pid = none → handlePlayerDisconnect s pid = (s, [])) ∧
    (findPlayer s pid = some p → p.data = none →
      handlePlayerDisconnect s pid = (removePlayer s pid, [])) := by
  have habsent : findPlayer (handlePlayerDisconnect s pid).1 pid = none := by
    cases h : findPlayer s pid with
    | none => simp only [handlePlayerDisconnect, h]
    | some w =>
      simp only [handlePlayerDisconnect, h]
      exact findPlayer_removePlayer_self s pid
  refine ⟨habsent, ?_, ?_, ?_⟩
  · set s1 := (handlePlayerDisconnect s pid).1 with hs1
    simp only [handlePlayerDisconnect, habsent]
  · intro h
    simp only [handlePlayerDisconnect, h]
  · intro h hd
    simp only [handlePlayerDisconnect, h, hd]

/-- Witness for C7 at a one-session registry holding the never-joined
session "a". -/
theorem c7_disconnect_idempotent_witness :
    findPlayer
        (handlePlayerDisconnect [Player.mk "a" true none "Park" 0] "a").1 "a"
      = none ∧
    handlePlayerDisconnect
        (handlePlayerDisconnect [Player.mk "a" true none "Park" 0] "a").1 "a"
      = ((handlePlayerDisconnect [Player.mk "a" true none "Park" 0] "a").1,
        []) ∧
    (findPlayer [Player.mk "a" true none "Park" 0] "a" = none →
      handlePlayerDisconnect [Player.mk "a" true none "Park" 0] "a"
        = ([Player.mk "a" true none "Park" 0], [])) ∧
    (findPlayer [Player.mk "a" true none "Park" 0] "a"
        = some (Player.mk "a" true none "Park" 0) →
      (Player.mk "a" true none "Park" 0).data = none →
      handlePlayerDisconnect [Player.mk "a" true none "Park" 0] "a"
        = (removePlayer [Player.mk "a" true none "Park" 0] "a", [])) :=
  c7_disconnect_idempotent [Player.mk "a" true none "Park" 0] "a"
    (Player.mk "a" true none "Park" 0)

/-- C5: a `player_join` on an existing session stores the profile built from
the client data with the `id` field overwritten by the server-assigned
session id and `joinTime` set to now; the joiner is sent a `player_list` of
exactly the other active sessions in its location (empty when alone), and
`player_joined` with the new profile is broadcast to the other active
sessions in that location and to no one else. -/
theorem c5_join_flow (s : ServerState) (pid : PlayerId) (d : JoinData)
    (now : Nat) (p : Player) (s' : ServerState) (outs : List Send)
    (prof' : Profile) (l : List Profile) (r' : PlayerId)
    (h1 : findPlayer s pid = some p)
    (h3 : handlePlayerJoin s pid d now = (s', outs)) :
    (mkProfile pid d now).id = pid ∧
    (mkProfile pid d now).joinTime = now ∧
    (mkProfile pid d now).nickname = d.nickname ∧
    (mkProfile pid d now).username = d.username ∧
    findPlayer s' pid = some { p with data := some (mkProfile pid d now) } ∧
    ((r', OutMsg.playerList l) ∈ outs →
      r' = pid ∧
        (prof' ∈ l ↔ specListedProfile s pid p.location prof' = true)) ∧
    (p.wsOpen = true →
      (pid, OutMsg.playerList ((getPlayersInLocation s' p.location
        (some pid)).filterMap (fun q => q.data))) ∈ outs) ∧
    (specAlone s pid p.location = true →
      (r', OutMsg.playerList l) ∈ outs → l = []) ∧
    ((r', OutMsg.playerJoined prof') ∈ outs →
      prof' = mkProfile pid d now ∧ r' ≠ pid ∧
        specRecipientLoc s p.location (some pid) r' = true) ∧
    (allOpen s = true →
      ((r', OutMsg.playerJoined (mkProfile pid d now)) ∈ outs ↔
        specRecipientLoc s p.location (some pid) r' = true)) := by
  simp only [handlePlayerJoin, h1] at h3
  rw [Prod.mk.injEq] at h3
  obtain ⟨hs', houts⟩ := h3
  subst hs'
  subst houts
  refine ⟨rfl, rfl, rfl, rfl, ?_, ?_, ?_, ?_, ?_, ?_⟩
  · rw [findPlayer_setData_self, h1]
    rfl
  · intro hmem
    rcases List.mem_append.mp hmem with hmem | hmem
    · rw [mem_sendToPlayer] at hmem
      obtain ⟨hr, hm, -⟩ := hmem
      refine ⟨hr, ?_⟩
      rw [OutMsg.playerList.injEq] at hm
      rw [hm]
      exact joinPayload_iff
    · rw [mem_broadcast] at hmem
      exact absurd hmem.1 (by simp)
  · intro hopen
    apply List.mem_append.mpr
    left
    rw [mem_sendToPlayer]
    refine ⟨rfl, rfl, { p with data := some (mkProfile pid d now) }, ?_, hopen⟩
    rw [findPlayer_setData_self, h1]
    rfl
  · intro halone hmem
    rcases List.mem_append.mp hmem with hmem | hmem
    · rw [mem_sendToPlayer] at hmem
      obtain ⟨-, hm, -⟩ := hmem
      rw [OutMsg.playerList.injEq] at hm
      rw [hm]
      exact joinPayload_nil halone
    · rw [mem_broadcast] at hmem
      exact absurd hmem.1 (by simp)
  · intro hmem
    rcases List.mem_append.mp hmem with hmem | hmem
    · rw [mem_sendToPlayer] at hmem
      exact absurd hmem.2.1 (by simp)
    · rw [mem_broadcast] at hmem
      obtain ⟨hm, hne, ⟨w, hw, hwid, hwloc, hwdata⟩, -⟩ := hmem
      rw [OutMsg.playerJoined.injEq] at hm
      have hne' : some pid ≠ some w.id := by
        rw [hwid]
        exact hne
      have hni : w.id ≠ pid := fun h => hne' (congrArg some h.symm)
      refine ⟨hm, fun h => hne (congrArg some h.symm), ?_⟩
      exact specRecipientLoc_iff.mpr
        ⟨w, mem_updatePlayer_of_ne hw hni (fun _ => rfl), hwid, hwdata, hwloc,
          hne'⟩
  · intro hall
    constructor
    · intro hmem
      rcases List.mem_append.mp hmem with hmem | hmem
      · rw [mem_sendToPlayer] at hmem
        exact absurd hmem.2.1 (by simp)
      · rw [mem_broadcast] at hmem
        obtain ⟨-, hne, ⟨w, hw, hwid, hwloc, hwdata⟩, -⟩ := hmem
        have hne' : some pid ≠ some w.id := by
          rw [hwid]
          exact hne
        have hni : w.id ≠ pid := fun h => hne' (congrArg some h.symm)
        exact specRecipientLoc_iff.mpr
          ⟨w, mem_updatePlayer_of_ne hw hni (fun _ => rfl), hwid, hwdata,
            hwloc, hne'⟩
    · intro hspec
      obtain ⟨w, hw, hwid, hwdata, hwloc, hwexcl⟩ := specRecipientLoc_iff.mp hspec
      have hni : w.id ≠ pid := fun h => hwexcl (congrArg some h.symm)
      have hw' : w ∈ updatePlayer s pid
          (fun q => { q with data := some (mkProfile pid d now) }) :=
        mem_updatePlayer_of_ne' hw hni
      apply List.mem_append.mpr
      right
      rw [mem_broadcast]
      obtain ⟨v, hv, hvm⟩ := findPlayer_of_mem hw' hwid
      have hner : some pid ≠ some r' := by
        rw [← hwid]
        exact hwexcl
      refine ⟨rfl, hner, ?_, v, hv, ?_⟩
      · exact ⟨w, hw', hwid, hwloc, hwdata⟩
      · have hall' : allOpen (updatePlayer s pid
            (fun q => { q with data := some (mkProfile pid d now) })) = true :=
          allOpen_updatePlayer hall (fun _ => rfl)
        exact allOpen_iff.mp hall' v hvm

/-- Witness for C5: unjoined session "a" joins at a registry where "b" is
already active at "Park"; the client-supplied id "evil" is discarded. -/
theorem c5_join_flow_witness :
    (mkProfile "a" (JoinData.mk (some "evil") (some "Al") (some "al")) 3).id
        = "a" ∧
    (mkProfile "a" (JoinData.mk (some "evil") (some "Al") (some "al"))
        3).joinTime = 3 ∧
    (mkProfile "a" (JoinData.mk (some "evil") (some "Al") (some "al"))
        3).nickname = some "Al" ∧
    (mkProfile "a" (JoinData.mk (some "evil") (some "Al") (some "al"))
        3).username = some "al" ∧
    findPlayer
        [Player.mk "a" true
          (some (mkProfile "a"
            (JoinData.mk (some "evil") (some "Al") (some "al")) 3)) "Park" 0,
         Player.mk "b" true (some (Profile.mk "b" (some "B") none 0 none none))
          "Park" 0] "a"
      = some { Player.mk "a" true none "Park" 0 with
          data := some (mkProfile "a"
            (JoinData.mk (some "evil") (some "Al") (some "al")) 3) } ∧
    ((("b" : PlayerId), OutMsg.playerList
        [Profile.mk "b" (some "B") none 0 none none]) ∈
        [(("a" : PlayerId), OutMsg.playerList
            [Profile.mk "b" (some "B") none 0 none none]),
          (("b" : PlayerId), OutMsg.playerJoined
            (mkProfile "a"
              (JoinData.mk (some "evil") (some "Al") (some "al")) 3))] →
      ("b" : PlayerId) = "a" ∧
        (mkProfile "a" (JoinData.mk (some "evil") (some "Al") (some "al")) 3 ∈
            [Profile.mk "b" (some "B") none 0 none none] ↔
          specListedProfile
            [Player.mk "a" true none "Park" 0,
             Player.mk "b" true
              (some (Profile.mk "b" (some "B") none 0 none none)) "Park" 0]
            "a" "Park"
            (mkProfile "a" (JoinData.mk (some "evil") (some "Al") (some "al"))
              3)
            = true)) ∧
    ((Player.mk "a" true none "Park" 0).wsOpen = true →
      ("a", OutMsg.playerList
        ((getPlayersInLocation
          [Player.mk "a" true
            (some (mkProfile "a"
              (JoinData.mk (some "evil") (some "Al") (some "al")) 3)) "Park" 0,
           Player.mk "b" true
            (some (Profile.mk "b" (some "B") none 0 none none)) "Park" 0]
          "Park" (some "a")).filterMap (fun q => q.data))) ∈
        [(("a" : PlayerId), OutMsg.playerList
            [Profile.mk "b" (some "B") none 0 none none]),
          (("b" : PlayerId), OutMsg.playerJoined
            (mkProfile "a"
              (JoinData.mk (some "evil") (some "Al") (some "al")) 3))]) ∧
    (specAlone
        [Player.mk "a" true none "Park" 0,
         Player.mk "b" true (some (Profile.mk "b" (some "B") none 0 none none))
          "Park" 0] "a" "Park" = true →
      (("b" : PlayerId), OutMsg.playerList
          [Profile.mk "b" (some "B") none 0 none none]) ∈
          [(("a" : PlayerId), OutMsg.playerList
              [Profile.mk "b" (some "B") none 0 none none]),
            (("b" : PlayerId), OutMsg.playerJoined
              (mkProfile "a"
                (JoinData.mk (some "evil") (some "Al") (some "al")) 3))] →
      [Profile.mk "b" (some "B") none 0 none none] = []) ∧
    ((("b" : PlayerId), OutMsg.playerJoined
        (mkProfile "a" (JoinData.mk (some "evil") (some "Al") (some "al")) 3))
        ∈
        [(("a" : PlayerId), OutMsg.playerList
            [Profile.mk "b" (some "B") none 0 none none]),
          (("b" : PlayerId), OutMsg.playerJoined
            (mkProfile "a"
              (JoinData.mk (some "evil") (some "Al") (some "al")) 3))] →
      mkProfile "a" (JoinData.mk (some "evil") (some "Al") (some "al")) 3
          = mkProfile "a" (JoinData.mk (some "evil") (some "Al") (some "al"))
            3 ∧
        ("b" : PlayerId) ≠ "a" ∧
        specRecipientLoc
          [Player.mk "a" true none "Park" 0,
           Player.mk "b" true
            (some (Profile.mk "b" (some "B") none 0 none none)) "Park" 0]
          "Park" (some "a") "b" = true) ∧
    (allOpen
        [Player.mk "a" true none "Park" 0,
         Player.mk "b" true (some (Profile.mk "b" (some "B") none 0 none none))
          "Park" 0] = true →
      ((("b" : PlayerId), OutMsg.playerJoined
          (mkProfile "a" (JoinData.mk (some "evil") (some "Al") (some "al"))
            3)) ∈
          [(("a" : PlayerId), OutMsg.playerList
              [Profile.mk "b" (some "B") none 0 none none]),
            (("b" : PlayerId), OutMsg.playerJoined
              (mkProfile "a"
                (JoinData.mk (some "evil") (some "Al") (some "al")) 3))] ↔
        specRecipientLoc
          [Player.mk "a" true none "Park" 0,
           Player.mk "b" true
            (some (Profile.mk "b" (some "B") none 0 none none)) "Park" 0]
          "Park" (some "a") "b" = true)) := by
  exact c5_join_flow
    [Player.mk "a" true none "Park" 0,
     Player.mk "b" true (some (Profile.mk "b" (some "B") none 0 none none))
      "Park" 0]
    "a" (JoinData.mk (some "evil") (some "Al") (some "al")) 3
    (Player.mk "a" true none "Park" 0)
    [Player.mk "a" true
      (some (mkProfile "a" (JoinData.mk (some "evil") (some "Al") (some "al"))
        3)) "Park" 0,
     Player.mk "b" true (some (Profile.mk "b" (some "B") none 0 none none))
      "Park" 0]
    [(("a" : PlayerId), OutMsg.playerList
        [Profile.mk "b" (some "B") none 0 none none]),
      (("b" : PlayerId), OutMsg.playerJoined
        (mkProfile "a" (JoinData.mk (some "evil") (some "Al") (some "al"))
          3))]
    (mkProfile "a" (JoinData.mk (some "evil") (some "Al") (some "al")) 3)
    [Profile.mk "b" (some "B") none 0 none none]
    "b"
    (by decide) (by decide)

/-- C6 counterexample: an unknown-type envelope does mutate session state —
`player.lastActivity = Date.now()` runs before the dispatch switch, so after
a connected unjoined session "a" (lastActivity 0) sends `{type:"bogus"}` at
time 5 the registry differs from what it was. -/
theorem c6_state_mutated_counterexample :
    (handlePlayerMessage [Player.mk "a" true none "Park" 0] "a"
        (Inbound.msg (Envelope.unknown "bogus")) 5).1
      ≠ [Player.mk "a" true none "Park" 0] := by decide

/-- C6 (amended): a malformed envelope yields exactly one error reply and no
state change at all; an unknown-type envelope yields exactly one error reply
and the only mutation is refreshing the sender's `lastActivity` — the
profile stays as it was (in particular unset stays unset) and the connection
stays open; nothing is sent to anyone else. -/
theorem c6_unknown_type_single_error (s : ServerState) (pid : PlayerId)
    (now : Nat) (t : String) (p : Player)
    (h1 : findPlayer s pid = some p) (hopen : p.wsOpen = true)
    (hunk : t ∉ (["player_join", "player_leave", "chat_message",
      "player_move"] : List String)) :
    handlePlayerMessage s pid Inbound.malformed now
      = (s, [(pid, OutMsg.error "Invalid message format")]) ∧
    handlePlayerMessage s pid (Inbound.msg (Envelope.unknown t)) now
      = (touch s pid now, [(pid, OutMsg.error "Unknown message type")]) ∧
    findPlayer (touch s pid now) pid = some { p with lastActivity := now } ∧
    ({ p with lastActivity := now } : Player).data = p.data ∧
    ({ p with lastActivity := now } : Player).wsOpen = true := by
  have hf1 : findPlayer (touch s pid now) pid
      = some { p with lastActivity := now } := by
    rw [findPlayer_touch_self, h1]
    rfl
  refine ⟨?_, ?_, hf1, rfl, hopen⟩
  · simp only [handlePlayerMessage, sendToPlayer, h1, hopen, if_true]
  · simp only [handlePlayerMessage, h1, sendToPlayer, hf1]
    have : ({ p with lastActivity := now } : Player).wsOpen = true := hopen
    rw [this, if_pos rfl]

/-- Witness for C6 (amended): unjoined open session "a" at time 5 with the
unknown type "bogus". -/
theorem c6_unknown_type_single_error_witness :
    handlePlayerMessage [Player.mk "a" true none "Park" 0] "a"
        Inbound.malformed 5
      = ([Player.mk "a" true none "Park" 0],
        [("a", OutMsg.error "Invalid message format")]) ∧
    handlePlayerMessage [Player.mk "a" true none "Park" 0] "a"
        (Inbound.msg (Envelope.unknown "bogus")) 5
      = (touch [Player.mk "a" true none "Park" 0] "a" 5,
        [("a", OutMsg.error "Unknown message type")]) ∧
    findPlayer (touch [Player.mk "a" true none "Park" 0] "a" 5) "a"
      = some { Player.mk "a" true none "Park" 0 with lastActivity := 5 } ∧
    ({ Player.mk "a" true none "Park" 0 with
        lastActivity := 5 } : Player).data
      = (Player.mk "a" true none "Park" 0).data ∧
    ({ Player.mk "a" true none "Park" 0 with
        lastActivity := 5 } : Player).wsOpen = true :=
  c6_unknown_type_single_error [Player.mk "a" true none "Park" 0] "a" 5
    "bogus" (Player.mk "a" true none "Park" 0)
    (by decide) (by decide) (by decide)

/-- C8 counterexample: a `player_move` from an active session whose envelope
has no `data` object at all throws inside the handler (`moveData.x` on
`undefined`), and the catch branch sends an error reply — contradicting
"never produces an error reply ... including a data object that is
missing". -/
theorem c8_missing_data_error_counterexample :
    (handlePlayerMessage
        [Player.mk "a" true (some (Profile.mk "a" (some "A") none 0 none none))
          "Park" 0] "a" (Inbound.msg (Envelope.playerMove none)) 1).2
      = [("a", OutMsg.error "Invalid message format")] := by decide

/-- C8 (amended): for a `player_move` from an active session whose `data` is
an object — including one lacking `x`/`y` fields entirely — handling never
produces an error reply (coordinates are clamped or defaulted); when the
`data` object is missing (`undefined`/`null`), the handler throws and the
sender instead receives exactly one `"Invalid message format"` error reply,
with only its `lastActivity` refreshed and its position unchanged. -/
theorem c8_move_never_rejected (s : ServerState) (pid : PlayerId) (now : Nat)
    (p : Player) (prof : Profile) (md : MoveData) (r' : PlayerId) (e : String)
    (h1 : findPlayer s pid = some p) (h2 : p.data = some prof) :
    (r', OutMsg.error e) ∉
      (handlePlayerMessage s pid
        (Inbound.msg (Envelope.playerMove (some md))) now).2 ∧
    (p.wsOpen = true →
      handlePlayerMessage s pid (Inbound.msg (Envelope.playerMove none)) now
        = (touch s pid now,
          [(pid, OutMsg.error "Invalid message format")])) := by
  have hf1 : findPlayer (touch s pid now) pid
      = some { p with lastActivity := now } := by
    rw [findPlayer_touch_self, h1]
    rfl
  have hd1 : ({ p with lastActivity := now } : Player).data = some prof := h2
  constructor
  · intro hmem
    simp only [handlePlayerMessage, h1, handlePlayerMove, hf1, hd1, h2]
      at hmem
    rw [mem_broadcast] at hmem
    exact absurd hmem.1 (by simp)
  · intro hopen
    simp only [handlePlayerMessage, h1, handlePlayerMove, hf1, hd1, h2,
      sendToPlayer]
    have : ({ p with lastActivity := now } : Player).wsOpen = true := hopen
    rw [this, if_pos rfl]

/-- Witness for C8 (amended): active open session "a", payload without
`x`/`y` fields. -/
theorem c8_move_never_rejected_witness :
    ("a", OutMsg.error "Invalid message format") ∉
      (handlePlayerMessage
        [Player.mk "a" true (some (Profile.mk "a" (some "A") none 0 none none))
          "Park" 0] "a"
        (Inbound.msg (Envelope.playerMove
          (some (MoveData.mk JVal.undef JVal.undef)))) 1).2 ∧
    ((Player.mk "a" true (some (Profile.mk "a" (some "A") none 0 none none))
        "Park" 0).wsOpen = true →
      handlePlayerMessage
        [Player.mk "a" true (some (Profile.mk "a" (some "A") none 0 none none))
          "Park" 0] "a" (Inbound.msg (Envelope.playerMove none)) 1
        = (touch
            [Player.mk "a" true
              (some (Profile.mk "a" (some "A") none 0 none none)) "Park" 0]
            "a" 1,
          [("a", OutMsg.error "Invalid message format")])) :=
  c8_move_never_rejected
    [Player.mk "a" true (some (Profile.mk "a" (some "A") none 0 none none))
      "Park" 0]
    "a" 1
    (Player.mk "a" true (some (Profile.mk "a" (some "A") none 0 none none))
      "Park" 0)
    (Profile.mk "a" (some "A") none 0 none none)
    (MoveData.mk JVal.undef JVal.undef) "a" "Invalid message format"
    (by decide) (by decide)

lemma disconnect_state_subset {s : ServerState} {pid : PlayerId} :
    ∀ q ∈ (handlePlayerDisconnect s pid).1, q ∈ s := by
  intro q hq
  cases h : findPlayer s pid with
  | none =>
    simp only [handlePlayerDisconnect, h] at hq
    exact hq
  | some w =>
    simp only [handlePlayerDisconnect, h] at hq
    exact (mem_removePlayer.mp hq).1

lemma disconnect_removes {s : ServerState} {pid : PlayerId} (q : Player)
    (hqid : q.id = pid) : q ∉ (handlePlayerDisconnect s pid).1 := by
  intro hq
  cases h : findPlayer s pid with
  | none =>
    simp only [handlePlayerDisconnect, h] at hq
    exact findPlayer_eq_none.mp h q hq hqid
  | some w =>
    simp only [handlePlayerDisconnect, h] at hq
    exact (mem_removePlayer.mp hq).2 hqid

lemma disconnect_out {s : ServerState} {pid : PlayerId} {r : PlayerId}
    {m : OutMsg} (h : (r, m) ∈ (handlePlayerDisconnect s pid).2) :
    ∃ w d, findPlayer s pid = some w ∧ w.data = some d ∧
      m = OutMsg.playerLeft pid d.nickname ∧ r ≠ pid ∧
      ∃ wr ∈ s, wr.id = r ∧ wr.data.isSome = true ∧
        wr.location = w.location := by
  cases hf : findPlayer s pid with
  | none =>
    simp only [handlePlayerDisconnect, hf] at h
    cases h
  | some w =>
    cases hd : w.data with
    | none =>
      simp only [handlePlayerDisconnect, hf, hd] at h
      cases h
    | some d =>
      simp only [handlePlayerDisconnect, hf, hd] at h
      rw [mem_broadcast] at h
      obtain ⟨hm, hne, ⟨wr, hwr, hwrid, hwrloc, hwrdata⟩, -⟩ := h
      exact ⟨w, d, rfl, hd, hm, fun he => hne (congrArg some he.symm),
        wr, hwr, hwrid, hwrdata, hwrloc⟩

lemma reapStep_eq_pos {now : Nat} {acc : ServerState × List Send} {a : Player}
    (h : staleCond now a = true) :
    reapStep now acc a
      = ((handlePlayerDisconnect acc.1 a.id).1,
        acc.2 ++ (handlePlayerDisconnect acc.1 a.id).2) := by
  simp [reapStep, h]

lemma reapStep_eq_neg {now : Nat} {acc : ServerState × List Send} {a : Player}
    (h : staleCond now a = false) : reapStep now acc a = acc := by
  simp [reapStep, h]

lemma reapStep_state_subset {now : Nat} {acc : ServerState × List Send}
    {a : Player} : ∀ q ∈ (reapStep now acc a).1, q ∈ acc.1 := by
  intro q hq
  cases hs : staleCond now a with
  | true =>
    rw [reapStep_eq_pos hs] at hq
    exact disconnect_state_subset q hq
  | false =>
    rw [reapStep_eq_neg hs] at hq
    exact hq

lemma reapFold_state_subset {now : Nat} :
    ∀ (l : List Player) (acc : ServerState × List Send) (q : Player),
      q ∈ (l.foldl (reapStep now) acc).1 → q ∈ acc.1 := by
  intro l
  induction l with
  | nil => exact fun acc q hq => hq
  | cons a t ih =>
    intro acc q hq
    rw [List.foldl_cons] at hq
    exact reapStep_state_subset q (ih _ q hq)

lemma reapFold_removes_stale {now : Nat} :
    ∀ (l : List Player) (acc : ServerState × List Send) (p : Player),
      p ∈ l → staleCond now p = true →
      p ∉ (l.foldl (reapStep now) acc).1 := by
  intro l
  induction l with
  | nil => intro acc p hp; cases hp
  | cons a t ih =>
    intro acc p hp hstale hmem
    rw [List.foldl_cons] at hmem
    rcases List.mem_cons.mp hp with rfl | hp'
    · have h1 : p ∉ (reapStep now acc p).1 := by
        rw [reapStep_eq_pos hstale]
        exact disconnect_removes p rfl
      exact h1 (reapFold_state_subset t _ p hmem)
    · exact ih _ p hp' hstale hmem

lemma reapFold_sends {now : Nat} {S : ServerState} :
    ∀ (l : List Player) (acc : ServerState × List Send),
      (∀ q ∈ acc.1, q ∈ S) →
      ∀ (r : PlayerId) (m : OutMsg), (r, m) ∈ (l.foldl (reapStep now) acc).2 →
        (r, m) ∈ acc.2 ∨
        ∃ wa ∈ S, ∃ d, wa.data = some d ∧
          m = OutMsg.playerLeft wa.id d.nickname ∧ r ≠ wa.id ∧
          ∃ wr ∈ S, wr.id = r ∧ wr.data.isSome = true ∧
            wr.location = wa.location := by
  intro l
  induction l with
  | nil => exact fun acc _ r m hm => Or.inl hm
  | cons a t ih =>
    intro acc hsub r m hm
    rw [List.foldl_cons] at hm
    have hsub' : ∀ q ∈ (reapStep now acc a).1, q ∈ S :=
      fun q hq => hsub q (reapStep_state_subset q hq)
    rcases ih (reapStep now acc a) hsub' r m hm with hin | hbig
    · cases hstale : staleCond now a with
      | false =>
        rw [reapStep_eq_neg hstale] at hin
        exact Or.inl hin
      | true =>
        rw [reapStep_eq_pos hstale] at hin
        rcases List.mem_append.mp hin with h | h
        · exact Or.inl h
        · obtain ⟨w, d, hfind, hdata, hm', hne, wr, hwr, hwrid, hwrdata,
            hwrloc⟩ := disconnect_out h
          obtain ⟨hwmem, hwid⟩ := findPlayer_some hfind
          right
          refine ⟨w, hsub w hwmem, d, hdata, ?_, ?_,
            wr, hsub wr hwr, hwrid, hwrdata, hwrloc⟩
          · rw [hwid]
            exact hm'
          · rw [hwid]
            exact hne
    · exact Or.inr hbig

lemma ids_disconnect_sublist (s : ServerState) (pid : PlayerId) :
    List.Sublist (((handlePlayerDisconnect s pid).1).map Player.id)
      (s.map Player.id) := by
  cases h : findPlayer s pid with
  | none =>
    simp only [handlePlayerDisconnect, h]
    exact List.Sublist.refl _
  | some p =>
    simp only [handlePlayerDisconnect, h]
    exact List.Sublist.map _ (List.filter_sublist s)

lemma staleCond_false_open {now : Nat} {w : Player}
    (h : staleCond now w = false) : w.wsOpen = true := by
  unfold staleCond at h
  rw [Bool.or_eq_false_iff] at h
  have := h.1
  simpa using this

lemma findPlayer_mem_nodup {s : ServerState} {w : Player}
    (hnd : (s.map Player.id).Nodup) (hw : w ∈ s) :
    findPlayer s w.id = some w := by
  cases h : findPlayer s w.id with
  | none => exact absurd rfl (findPlayer_eq_none.mp h w hw)
  | some v =>
    obtain ⟨hvmem, hvid⟩ := findPlayer_some h
    rw [id_inj hnd hvmem hw hvid]

lemma mem_disconnect_of_ne {s : ServerState} {pid : PlayerId} {q : Player}
    (hq : q ∈ s) (hne : q.id ≠ pid) :
    q ∈ (handlePlayerDisconnect s pid).1 := by
  cases h : findPlayer s pid with
  | none =>
    simp only [handlePlayerDisconnect, h]
    exact hq
  | some v =>
    simp only [handlePlayerDisconnect, h]
    exact mem_removePlayer.mpr ⟨hq, hne⟩

lemma reapFold_sends_mono {now : Nat} :
    ∀ (l : List Player) (acc : ServerState × List Send) (x : Send),
      x ∈ acc.2 → x ∈ (l.foldl (reapStep now) acc).2 := by
  intro l
  induction l with
  | nil => exact fun acc x hx => hx
  | cons a t ih =>
    intro acc x hx
    rw [List.foldl_cons]
    refine ih (reapStep now acc a) x ?_
    cases hs : staleCond now a with
    | true =>
      rw [reapStep_eq_pos hs]
      exact List.mem_append.mpr (Or.inl hx)
    | false =>
      rw [reapStep_eq_neg hs]
      exact hx

lemma reapFold_delivers {now : Nat} {S : ServerState} {p w : Player}
    {d : Profile} (hndS : (S.map Player.id).Nodup)
    (hstale : staleCond now p = true) (hd : p.data = some d)
    (hwid : w.id ≠ p.id) (hwstale : staleCond now w = false)
    (hwloc : w.location = p.location) (hwdata : w.data.isSome = true) :
    ∀ (l : List Player) (acc : ServerState × List Send),
      (∀ x ∈ l, x ∈ S) → (∀ x ∈ acc.1, x ∈ S) →
      ((acc.1.map Player.id).Nodup) →
      p ∈ l → p ∈ acc.1 → w ∈ acc.1 →
      (w.id, OutMsg.playerLeft p.id d.nickname) ∈
        (l.foldl (reapStep now) acc).2 := by
  intro l
  induction l with
  | nil =>
    intro acc _ _ _ hpl
    cases hpl
  | cons a t ih =>
    intro acc hls hsub hnacc hpl hpacc hwacc
    rw [List.foldl_cons]
    by_cases hpa : p = a
    · subst hpa
      have hfp : findPlayer acc.1 p.id = some p :=
        findPlayer_mem_nodup hnacc hpacc
      apply reapFold_sends_mono
      rw [reapStep_eq_pos hstale]
      apply List.mem_append.mpr
      right
      simp only [handlePlayerDisconnect, hfp, hd]
      rw [mem_broadcast]
      exact ⟨rfl, fun h => hwid (Option.some.inj h).symm,
        ⟨w, hwacc, rfl, hwloc, hwdata⟩,
        ⟨w, findPlayer_mem_nodup hnacc hwacc, staleCond_false_open hwstale⟩⟩
    · have hpt : p ∈ t := by
        rcases List.mem_cons.mp hpl with h | h
        · exact absurd h hpa
        · exact h
      have ha_in_S : a ∈ S := hls a (List.mem_cons_self a t)
      have hls' : ∀ x ∈ t, x ∈ S := fun x hx =>
        hls x (List.mem_cons_of_mem a hx)
      cases hsa : staleCond now a with
      | false =>
        rw [reapStep_eq_neg hsa]
        exact ih acc hls' hsub hnacc hpt hpacc hwacc
      | true =>
        rw [reapStep_eq_pos hsa]
        have hap : p.id ≠ a.id := by
          intro h
          exact hpa (id_inj hndS (hsub p hpacc) ha_in_S h)
        have hwa : w.id ≠ a.id := by
          intro h
          have heq : w = a := id_inj hndS (hsub w hwacc) ha_in_S h
          rw [← heq] at hsa
          rw [hwstale] at hsa
          cases hsa
        exact ih ((handlePlayerDisconnect acc.1 a.id).1,
            acc.2 ++ (handlePlayerDisconnect acc.1 a.id).2)
          hls'
          (fun x hx => hsub x (disconnect_state_subset x hx))
          (List.Nodup.sublist (ids_disconnect_sublist acc.1 a.id) hnacc)
          hpt
          (mem_disconnect_of_ne hpacc hap)
          (mem_disconnect_of_ne hwacc hwa)

/-- C9: after a reaper sweep at time `now`, no session with a non-open
transport or idle for more than 5 minutes remains in the Registry; a stale
session is evicted exactly as an abrupt disconnect: no `player_left` names a
never-active session, every delivered `player_left` goes to a profile-set
session in the actor's own location, never to the actor itself, and every
surviving (open, non-idle) active session sharing an evicted active
session's location does receive its `player_left`. -/
theorem c9_reaper_sweep (s : ServerState) (now : Nat) (p : Player)
    (r' aid : PlayerId) (nick : Option String) (w : Player) (d : Profile)
    (hnd : (s.map Player.id).Nodup) :
    (p ∈ (cleanupDisconnectedPlayers s now).1 →
      p.wsOpen = true ∧ now - p.lastActivity ≤ reapTimeoutMs) ∧
    (p ∈ s → (p.wsOpen = false ∨ now - p.lastActivity > reapTimeoutMs) →
      p ∉ (cleanupDisconnectedPlayers s now).1) ∧
    (p ∈ s → p.data = none →
      (r', OutMsg.playerLeft p.id nick) ∉
        (cleanupDisconnectedPlayers s now).2) ∧
    ((r', OutMsg.playerLeft aid nick) ∈ (cleanupDisconnectedPlayers s now).2 →
      r' ≠ aid ∧ specReapLeft s aid r' = true) ∧
    (p ∈ s → p.data = some d →
      (p.wsOpen = false ∨ now - p.lastActivity > reapTimeoutMs) →
      w ∈ s → w.id ≠ p.id → w.wsOpen = true →
      now - w.lastActivity ≤ reapTimeoutMs →
      w.location = p.location → w.data.isSome = true →
      (w.id, OutMsg.playerLeft p.id d.nickname) ∈
        (cleanupDisconnectedPlayers s now).2) := by
  have hstale_of : ∀ q : Player,
      (q.wsOpen = false ∨ now - q.lastActivity > reapTimeoutMs) →
      staleCond now q = true := by
    intro q hq
    rcases hq with hq | hq
    · simp [staleCond, hq]
    · simp [staleCond, hq]
  have hsends : ∀ (r : PlayerId) (m : OutMsg),
      (r, m) ∈ (cleanupDisconnectedPlayers s now).2 →
      ∃ wa ∈ s, ∃ d, wa.data = some d ∧
        m = OutMsg.playerLeft wa.id d.nickname ∧ r ≠ wa.id ∧
        ∃ wr ∈ s, wr.id = r ∧ wr.data.isSome = true ∧
          wr.location = wa.location := by
    intro r m hm
    unfold cleanupDisconnectedPlayers at hm
    rcases reapFold_sends s (s, []) (fun q hq => hq) r m hm with h | h
    · cases h
    · exact h
  refine ⟨?_, ?_, ?_, ?_, ?_⟩
  · intro hp
    have hps : p ∈ s := by
      unfold cleanupDisconnectedPlayers at hp
      exact reapFold_state_subset s (s, []) p hp
    by_cases hopen : p.wsOpen = true
    · refine ⟨hopen, ?_⟩
      by_contra hidle
      push_neg at hidle
      exact reapFold_removes_stale s (s, []) p hps
        (hstale_of p (Or.inr hidle)) hp
    · exact absurd
        (reapFold_removes_stale s (s, []) p hps
          (hstale_of p (Or.inl (Bool.not_eq_true _ ▸ hopen :
            p.wsOpen = false))) hp)
        (fun h => h)
      -- stale because transport not open
  · intro hp hcond
    exact reapFold_removes_stale s (s, []) p hp (hstale_of p hcond)
  · intro hp hdata hmem
    obtain ⟨wa, hwa, d, hwadata, hm, -, -⟩ := hsends r' _ hmem
    rw [OutMsg.playerLeft.injEq] at hm
    have : wa = p := id_inj hnd hwa hp hm.1.symm
    rw [this, hdata] at hwadata
    cases hwadata
  · intro hmem
    obtain ⟨wa, hwa, d, hwadata, hm, hne, wr, hwr, hwrid, hwrdata, hwrloc⟩ :=
      hsends r' _ hmem
    rw [OutMsg.playerLeft.injEq] at hm
    constructor
    · rw [hm.1]
      exact hne
    · unfold specReapLeft
      rw [List.any_eq_true]
      refine ⟨wa, hwa, ?_⟩
      have h2 : s.any (fun wr' => wr'.id == r' && wr'.data.isSome &&
          wr'.location == wa.location) = true := by
        rw [List.any_eq_true]
        exact ⟨wr, hwr, by simp [hwrid, hwrdata, hwrloc]⟩
      simp [hm.1.symm, hwadata, h2]
  · intro hp hd hcond hw hwid hwopen hwidle hwloc hwdata
    have hstalep : staleCond now p = true := hstale_of p hcond
    have hwstale : staleCond now w = false := by
      unfold staleCond
      rw [hwopen]
      simp
      omega
    exact reapFold_delivers hnd hstalep hd hwid hwstale hwloc hwdata
      s (s, []) (fun x hx => hx) (fun x hx => hx) hnd hp hp hw

/-- Witness for C9: registry with a closed-transport active session "a", an
idle active session "b" (lastActivity 0, swept at `now` past the
threshold), and a live session "c"; the sweep removes "a" and delivers
`player_left{id:"a"}` to the surviving co-located session "c". -/
theorem c9_reaper_sweep_witness :
    (Player.mk "a" false (some (Profile.mk "a" (some "A") none 0 none none))
        "Park" 400000 ∈
      (cleanupDisconnectedPlayers
        [Player.mk "a" false (some (Profile.mk "a" (some "A") none 0 none none))
          "Park" 400000,
         Player.mk "b" true (some (Profile.mk "b" (some "B") none 0 none none))
          "Park" 0,
         Player.mk "c" true (some (Profile.mk "c" (some "C") none 0 none none))
          "Park" 400000] 400000).1 →
      (Player.mk "a" false (some (Profile.mk "a" (some "A") none 0 none none))
        "Park" 400000).wsOpen = true ∧
      400000 - (Player.mk "a" false
        (some (Profile.mk "a" (some "A") none 0 none none))
        "Park" 400000).lastActivity ≤ reapTimeoutMs) ∧
    (Player.mk "a" false (some (Profile.mk "a" (some "A") none 0 none none))
        "Park" 400000 ∈
      [Player.mk "a" false (some (Profile.mk "a" (some "A") none 0 none none))
        "Park" 400000,
       Player.mk "b" true (some (Profile.mk "b" (some "B") none 0 none none))
        "Park" 0,
       Player.mk "c" true (some (Profile.mk "c" (some "C") none 0 none none))
        "Park" 400000] →
      ((Player.mk "a" false (some (Profile.mk "a" (some "A") none 0 none none))
          "Park" 400000).wsOpen = false ∨
        400000 - (Player.mk "a" false
          (some (Profile.mk "a" (some "A") none 0 none none))
          "Park" 400000).lastActivity > reapTimeoutMs) →
      Player.mk "a" false (some (Profile.mk "a" (some "A") none 0 none none))
          "Park" 400000 ∉
        (cleanupDisconnectedPlayers
          [Player.mk "a" false
            (some (Profile.mk "a" (some "A") none 0 none none))
            "Park" 400000,
           Player.mk "b" true
            (some (Profile.mk "b" (some "B") none 0 none none)) "Park" 0,
           Player.mk "c" true
            (some (Profile.mk "c" (some "C") none 0 none none))
            "Park" 400000] 400000).1) ∧
    (Player.mk "a" false (some (Profile.mk "a" (some "A") none 0 none none))
        "Park" 400000 ∈
      [Player.mk "a" false (some (Profile.mk "a" (some "A") none 0 none none))
        "Park" 400000,
       Player.mk "b" true (some (Profile.mk "b" (some "B") none 0 none none))
        "Park" 0,
       Player.mk "c" true (some (Profile.mk "c" (some "C") none 0 none none))
        "Park" 400000] →
      (Player.mk "a" false (some (Profile.mk "a" (some "A") none 0 none none))
        "Park" 400000).data = none →
      (("c" : PlayerId), OutMsg.playerLeft
        (Player.mk "a" false (some (Profile.mk "a" (some "A") none 0 none none))
          "Park" 400000).id (some "A")) ∉
        (cleanupDisconnectedPlayers
          [Player.mk "a" false
            (some (Profile.mk "a" (some "A") none 0 none none))
            "Park" 400000,
           Player.mk "b" true
            (some (Profile.mk "b" (some "B") none 0 none none)) "Park" 0,
           Player.mk "c" true
            (some (Profile.mk "c" (some "C") none 0 none none))
            "Park" 400000] 400000).2) ∧
    ((("c" : PlayerId), OutMsg.playerLeft "a" (some "A")) ∈
        (cleanupDisconnectedPlayers
          [Player.mk "a" false
            (some (Profile.mk "a" (some "A") none 0 none none))
            "Park" 400000,
           Player.mk "b" true
            (some (Profile.mk "b" (some "B") none 0 none none)) "Park" 0,
           Player.mk "c" true
            (some (Profile.mk "c" (some "C") none 0 none none))
            "Park" 400000] 400000).2 →
      ("c" : PlayerId) ≠ "a" ∧
        specReapLeft
          [Player.mk "a" false
            (some (Profile.mk "a" (some "A") none 0 none none))
            "Park" 400000,
           Player.mk "b" true
            (some (Profile.mk "b" (some "B") none 0 none none)) "Park" 0,
           Player.mk "c" true
            (some (Profile.mk "c" (some "C") none 0 none none))
            "Park" 400000] "a" "c" = true) ∧
    (Player.mk "a" false (some (Profile.mk "a" (some "A") none 0 none none))
        "Park" 400000 ∈
      [Player.mk "a" false (some (Profile.mk "a" (some "A") none 0 none none))
        "Park" 400000,
       Player.mk "b" true (some (Profile.mk "b" (some "B") none 0 none none))
        "Park" 0,
       Player.mk "c" true (some (Profile.mk "c" (some "C") none 0 none none))
        "Park" 400000] →
      (Player.mk "a" false (some (Profile.mk "a" (some "A") none 0 none none))
        "Park" 400000).data
        = some (Profile.mk "a" (some "A") none 0 none none) →
      ((Player.mk "a" false (some (Profile.mk "a" (some "A") none 0 none none))
          "Park" 400000).wsOpen = false ∨
        400000 - (Player.mk "a" false
          (some (Profile.mk "a" (some "A") none 0 none none))
          "Park" 400000).lastActivity > reapTimeoutMs) →
      Player.mk "c" true (some (Profile.mk "c" (some "C") none 0 none none))
          "Park" 400000 ∈
        [Player.mk "a" false (some (Profile.mk "a" (some "A") none 0 none none))
          "Park" 400000,
         Player.mk "b" true (some (Profile.mk "b" (some "B") none 0 none none))
          "Park" 0,
         Player.mk "c" true (some (Profile.mk "c" (some "C") none 0 none none))
          "Park" 400000] →
      (Player.mk "c" true (some (Profile.mk "c" (some "C") none 0 none none))
          "Park" 400000).id
        ≠ (Player.mk "a" false
          (some (Profile.mk "a" (some "A") none 0 none none))
          "Park" 400000).id →
      (Player.mk "c" true (some (Profile.mk "c" (some "C") none 0 none none))
        "Park" 400000).wsOpen = true →
      400000 - (Player.mk "c" true
        (some (Profile.mk "c" (some "C") none 0 none none))
        "Park" 400000).lastActivity ≤ reapTimeoutMs →
      (Player.mk "c" true (some (Profile.mk "c" (some "C") none 0 none none))
          "Park" 400000).location
        = (Player.mk "a" false
          (some (Profile.mk "a" (some "A") none 0 none none))
          "Park" 400000).location →
      (Player.mk "c" true (some (Profile.mk "c" (some "C") none 0 none none))
        "Park" 400000).data.isSome = true →
      ((Player.mk "c" true (some (Profile.mk "c" (some "C") none 0 none none))
          "Park" 400000).id,
        OutMsg.playerLeft
          (Player.mk "a" false
            (some (Profile.mk "a" (some "A") none 0 none none))
            "Park" 400000).id
          (Profile.mk "a" (some "A") none 0 none none).nickname) ∈
        (cleanupDisconnectedPlayers
          [Player.mk "a" false
            (some (Profile.mk "a" (some "A") none 0 none none))
            "Park" 400000,
           Player.mk "b" true
            (some (Profile.mk "b" (some "B") none 0 none none)) "Park" 0,
           Player.mk "c" true
            (some (Profile.mk "c" (some "C") none 0 none none))
            "Park" 400000] 400000).2) :=
  c9_reaper_sweep
    [Player.mk "a" false (some (Profile.mk "a" (some "A") none 0 none none))
      "Park" 400000,
     Player.mk "b" true (some (Profile.mk "b" (some "B") none 0 none none))
      "Park" 0,
     Player.mk "c" true (some (Profile.mk "c" (some "C") none 0 none none))
      "Park" 400000]
    400000
    (Player.mk "a" false (some (Profile.mk "a" (some "A") none 0 none none))
      "Park" 400000)
    "c" "a" (some "A")
    (Player.mk "c" true (some (Profile.mk "c" (some "C") none 0 none none))
      "Park" 400000)
    (Profile.mk "a" (some "A") none 0 none none)
    (by decide)

/-! ## Invariant preservation (for the reachable-state claims) -/

lemma mem_mapSet {s : ServerState} {p q : Player} (hq : q ∈ mapSet s p) :
    q = p ∨ q ∈ s := by
  unfold mapSet at hq
  by_cases ha : s.any (fun w => w.id == p.id) = true
  · rw [if_pos ha] at hq
    obtain ⟨w, hw, hqe⟩ := List.mem_map.mp hq
    by_cases hc : w.id = p.id
    · rw [if_pos (by simpa using hc)] at hqe
      exact Or.inl hqe.symm
    · rw [if_neg (by simpa using hc)] at hqe
      exact Or.inr (hqe ▸ hw)
  · rw [if_neg ha] at hq
    rcases List.mem_append.mp hq with h | h
    · exact Or.inr h
    · exact Or.inl (List.mem_singleton.mp h)

lemma nodup_mapSet {s : ServerState} {p : Player}
    (h : (s.map Player.id).Nodup) : ((mapSet s p).map Player.id).Nodup := by
  unfold mapSet
  by_cases ha : s.any (fun w => w.id == p.id) = true
  · rw [if_pos ha, List.map_map]
    have heq : s.map (Player.id ∘ fun q => if q.id == p.id then p else q)
        = s.map Player.id := by
      apply List.map_congr_left
      intro a _
      by_cases hc : a.id = p.id
      · simp [hc]
      · simp [hc]
    rw [heq]
    exact h
  · rw [if_neg ha, List.map_append]
    rw [List.nodup_append]
    refine ⟨h, List.nodup_singleton _, ?_⟩
    intro x hx hx'
    rw [List.map_singleton, List.mem_singleton] at hx'
    subst hx'
    obtain ⟨w, hw, hwid⟩ := List.mem_map.mp hx
    rw [List.any_eq_true] at ha
    push_neg at ha
    exact absurd (by simpa using hwid) (by simpa using ha w hw)

lemma ids_leave_sublist (s : ServerState) (pid : PlayerId) :
    List.Sublist (((handlePlayerLeave s pid).1).map Player.id)
      (s.map Player.id) := by
  cases h : findPlayer s pid with
  | none =>
    simp only [handlePlayerLeave, h]
    exact List.Sublist.refl _
  | some p =>
    cases hd : p.data with
    | none =>
      simp only [handlePlayerLeave, h, hd]
      exact List.Sublist.refl _
    | some d =>
      simp only [handlePlayerLeave, h, hd]
      exact List.Sublist.map _ (List.filter_sublist s)

lemma mem_leave_state {s : ServerState} {pid : PlayerId} {q : Player}
    (hq : q ∈ (handlePlayerLeave s pid).1) : q ∈ s := by
  cases h : findPlayer s pid with
  | none =>
    simp only [handlePlayerLeave, h] at hq
    exact hq
  | some p =>
    cases hd : p.data with
    | none =>
      simp only [handlePlayerLeave, h, hd] at hq
      exact hq
    | some d =>
      simp only [handlePlayerLeave, h, hd] at hq
      exact (mem_removePlayer.mp hq).1

lemma ids_join (s : ServerState) (pid : PlayerId) (d : JoinData) (now : Nat) :
    ((handlePlayerJoin s pid d now).1).map Player.id = s.map Player.id := by
  cases h : findPlayer s pid with
  | none => simp only [handlePlayerJoin, h]
  | some p =>
    simp only [handlePlayerJoin, h]
    exact ids_updatePlayer (fun _ => rfl)

lemma mem_join_state {s : ServerState} {pid : PlayerId} {d : JoinData}
    {now : Nat} {q : Player} (hq : q ∈ (handlePlayerJoin s pid d now).1) :
    ∃ q₀ ∈ s, q.id = q₀.id ∧ q.location = q₀.location ∧
      (q.data = q₀.data ∨ (q.id = pid ∧ q.data = some (mkProfile pid d now))) := by
  cases h : findPlayer s pid with
  | none =>
    simp only [handlePlayerJoin, h] at hq
    exact ⟨q, hq, rfl, rfl, Or.inl rfl⟩
  | some p =>
    simp only [handlePlayerJoin, h] at hq
    obtain ⟨q₀, hq₀, hqe⟩ := mem_updatePlayer.mp hq
    cases hc : (q₀.id == pid) with
    | true =>
      rw [hc] at hqe
      simp at hqe
      subst hqe
      exact ⟨_, hq₀, rfl, rfl, Or.inr ⟨beq_iff_eq.mp hc, rfl⟩⟩
    | false =>
      rw [hc] at hqe
      simp at hqe
      subst hqe
      exact ⟨_, hq₀, rfl, rfl, Or.inl rfl⟩

lemma chat_state_cases (s : ServerState) (pid : PlayerId)
    (od : Option ChatData) (now : Nat) :
    handleChatMessage s pid od now = .error () ∨
    ∃ outs, handleChatMessage s pid od now = .ok (s, outs) := by
  cases hf : findPlayer s pid with
  | none => exact Or.inr ⟨[], by simp only [handleChatMessage, hf]⟩
  | some p =>
    cases hd : p.data with
    | none => exact Or.inr ⟨[], by simp only [handleChatMessage, hf, hd]⟩
    | some prof =>
      cases od with
      | none => exact Or.inl (by simp only [handleChatMessage, hf, hd])
      | some cd =>
        cases ht : cd.text with
        | none => exact Or.inr ⟨[], by simp only [handleChatMessage, hf, hd, ht]⟩
        | some t =>
          by_cases he : t = ""
          · exact Or.inr ⟨[], by
              simp only [handleChatMessage, hf, hd, ht]
              rw [if_pos he]⟩
          · by_cases hl : jsLen (jsTrim t) = 0
            · exact Or.inr ⟨[], by
                simp only [handleChatMessage, hf, hd, ht]
                rw [if_neg he, if_pos hl]⟩
            · refine Or.inr ⟨_, by
                simp only [handleChatMessage, hf, hd, ht]
                rw [if_neg he, if_neg hl]⟩

lemma move_state_cases (s : ServerState) (pid : PlayerId)
    (od : Option MoveData) :
    handlePlayerMove s pid od = .error () ∨
    (∃ outs, handlePlayerMove s pid od = .ok (s, outs)) ∨
    ∃ (g : Profile → Profile) (outs : List Send),
      (∀ pr, (g pr).id = pr.id) ∧
      handlePlayerMove s pid od
        = .ok (updatePlayer s pid
            (fun q => { q with data := q.data.map g }), outs) := by
  cases hf : findPlayer s pid with
  | none =>
    exact Or.inr (Or.inl ⟨[], by simp only [handlePlayerMove, hf]⟩)
  | some p =>
    cases hd : p.data with
    | none =>
      exact Or.inr (Or.inl ⟨[], by simp only [handlePlayerMove, hf, hd]⟩)
    | some prof =>
      cases od with
      | none => exact Or.inl (by simp only [handlePlayerMove, hf, hd])
      | some md =>
        exact Or.inr (Or.inr ⟨fun pr => { pr with
          x := some (clampMove md.x), y := some (clampMove md.y) },
          broadcastToLocation
            (updatePlayer s pid (fun q => { q with data := q.data.map (fun pr => { pr with x := some (clampMove md.x), y := some (clampMove md.y) }) }))
            p.location
            (OutMsg.playerMoved pid (clampMove md.x) (clampMove md.y))
            (some pid),
          fun pr => rfl, by simp only [handlePlayerMove, hf, hd]⟩)

lemma ids_message_sublist (s : ServerState) (pid : PlayerId) (raw : Inbound)
    (now : Nat) :
    List.Sublist (((handlePlayerMessage s pid raw now).1).map Player.id)
      (s.map Player.id) := by
  have hids1 : (touch s pid now).map Player.id = s.map Player.id :=
    ids_updatePlayer (fun _ => rfl)
  cases raw with
  | malformed => exact List.Sublist.refl _
  | msg env =>
    cases hf : findPlayer s pid with
    | none =>
      simp only [handlePlayerMessage, hf]
      exact List.Sublist.refl _
    | some p =>
      cases env with
      | playerJoin d =>
        simp only [handlePlayerMessage, hf]
        rw [ids_join, hids1]
      | playerLeave =>
        simp only [handlePlayerMessage, hf]
        exact hids1 ▸ ids_leave_sublist (touch s pid now) pid
      | chatMessage od =>
        simp only [handlePlayerMessage, hf]
        rcases chat_state_cases (touch s pid now) pid od now with h | ⟨outs, h⟩
        · rw [h, hids1.symm]
        · rw [h, hids1.symm]
      | playerMove od =>
        simp only [handlePlayerMessage, hf]
        rcases move_state_cases (touch s pid now) pid od with
          h | ⟨outs, h⟩ | ⟨g, outs, hg, h⟩
        · rw [h, hids1.symm]
        · rw [h, hids1.symm]
        · rw [h]
          have hupd : (updatePlayer (touch s pid now) pid
              (fun q => { q with data := q.data.map g })).map Player.id
              = (touch s pid now).map Player.id :=
            ids_updatePlayer (fun _ => rfl)
          rw [hupd, hids1]
      | unknown t =>
        simp only [handlePlayerMessage, hf]
        rw [hids1.symm]

lemma mem_touch_state {s : ServerState} {pid : PlayerId} {now : Nat}
    {q : Player} (hq : q ∈ touch s pid now) :
    ∃ q₀ ∈ s, q.id = q₀.id ∧ q.location = q₀.location ∧ q.data = q₀.data := by
  obtain ⟨q₀, hq₀, hqe⟩ := mem_updatePlayer.mp hq
  cases hc : (q₀.id == pid) with
  | true =>
    rw [hc] at hqe
    simp at hqe
    subst hqe
    exact ⟨_, hq₀, rfl, rfl, rfl⟩
  | false =>
    rw [hc] at hqe
    simp at hqe
    subst hqe
    exact ⟨_, hq₀, rfl, rfl, rfl⟩

lemma mem_message_state {s : ServerState} {pid : PlayerId} {raw : Inbound}
    {now : Nat} {q : Player}
    (hq : q ∈ (handlePlayerMessage s pid raw now).1) :
    ∃ q₀ ∈ s, q.id = q₀.id ∧ q.location = q₀.location ∧
      (q.data = q₀.data ∨
        (q.id = pid ∧ ∃ d n, q.data = some (mkProfile pid d n)) ∨
        ∃ (g : Profile → Profile), (∀ pr, (g pr).id = pr.id) ∧
          q.data = q₀.data.map g) := by
  cases raw with
  | malformed => exact ⟨q, hq, rfl, rfl, Or.inl rfl⟩
  | msg env =>
    cases hf : findPlayer s pid with
    | none =>
      simp only [handlePlayerMessage, hf] at hq
      exact ⟨q, hq, rfl, rfl, Or.inl rfl⟩
    | some p =>
      have touch_back : ∀ w : Player, w ∈ touch s pid now →
          ∃ q₀ ∈ s, w.id = q₀.id ∧ w.location = q₀.location ∧
            w.data = q₀.data := fun w hw => mem_touch_state hw
      cases env with
      | playerJoin d =>
        simp only [handlePlayerMessage, hf] at hq
        obtain ⟨q₁, hq₁, hid1, hloc1, hcase⟩ := mem_join_state hq
        obtain ⟨q₀, hq₀, hid0, hloc0, hdata0⟩ := touch_back q₁ hq₁
        refine ⟨q₀, hq₀, hid1.trans hid0, hloc1.trans hloc0, ?_⟩
        rcases hcase with h | ⟨hqid, hdata⟩
        · exact Or.inl (h.trans hdata0)
        · exact Or.inr (Or.inl ⟨hqid, d, now, hdata⟩)
      | playerLeave =>
        simp only [handlePlayerMessage, hf] at hq
        obtain ⟨q₀, hq₀, hid0, hloc0, hdata0⟩ :=
          touch_back q (mem_leave_state hq)
        exact ⟨q₀, hq₀, hid0, hloc0, Or.inl hdata0⟩
      | chatMessage od =>
        simp only [handlePlayerMessage, hf] at hq
        rcases chat_state_cases (touch s pid now) pid od now with h | ⟨outs, h⟩
        · rw [h] at hq
          obtain ⟨q₀, hq₀, hid0, hloc0, hdata0⟩ := touch_back q hq
          exact ⟨q₀, hq₀, hid0, hloc0, Or.inl hdata0⟩
        · rw [h] at hq
          obtain ⟨q₀, hq₀, hid0, hloc0, hdata0⟩ := touch_back q hq
          exact ⟨q₀, hq₀, hid0, hloc0, Or.inl hdata0⟩
      | playerMove od =>
        simp only [handlePlayerMessage, hf] at hq
        rcases move_state_cases (touch s pid now) pid od with
          h | ⟨outs, h⟩ | ⟨g, outs, hg, h⟩
        · rw [h] at hq
          obtain ⟨q₀, hq₀, hid0, hloc0, hdata0⟩ := touch_back q hq
          exact ⟨q₀, hq₀, hid0, hloc0, Or.inl hdata0⟩
        · rw [h] at hq
          obtain ⟨q₀, hq₀, hid0, hloc0, hdata0⟩ := touch_back q hq
          exact ⟨q₀, hq₀, hid0, hloc0, Or.inl hdata0⟩
        · rw [h] at hq
          obtain ⟨q₁, hq₁, hqe⟩ := mem_updatePlayer.mp hq
          obtain ⟨q₀, hq₀, hid1, hloc1, hdata1⟩ := touch_back q₁ hq₁
          cases hc : (q₁.id == pid) with
          | true =>
            rw [hc] at hqe
            simp at hqe
            subst hqe
            exact ⟨q₀, hq₀, hid1, hloc1,
              Or.inr (Or.inr ⟨g, hg, by rw [hdata1]⟩)⟩
          | false =>
            rw [hc] at hqe
            simp at hqe
            subst hqe
            exact ⟨q₀, hq₀, hid1, hloc1, Or.inl hdata1⟩
      | unknown t =>
        simp only [handlePlayerMessage, hf] at hq
        obtain ⟨q₀, hq₀, hid0, hloc0, hdata0⟩ := touch_back q hq
        exact ⟨q₀, hq₀, hid0, hloc0, Or.inl hdata0⟩

lemma reapFold_ids_sublist {now : Nat} :
    ∀ (l : List Player) (acc : ServerState × List Send),
      List.Sublist (((l.foldl (reapStep now) acc).1).map Player.id)
        (acc.1.map Player.id) := by
  intro l
  induction l with
  | nil => exact fun acc => List.Sublist.refl _
  | cons a t ih =>
    intro acc
    rw [List.foldl_cons]
    refine List.Sublist.trans (ih (reapStep now acc a)) ?_
    cases hs : staleCond now a with
    | true =>
      rw [reapStep_eq_pos hs]
      exact ids_disconnect_sublist acc.1 a.id
    | false => rw [reapStep_eq_neg hs]

lemma applyOp_nodup {s : ServerState} {op : Op}
    (h : (s.map Player.id).Nodup) :
    (((applyOp s op).1).map Player.id).Nodup := by
  cases op with
  | connect pid now => exact nodup_mapSet h
  | message pid raw now =>
    exact List.Nodup.sublist (ids_message_sublist s pid raw now) h
  | closeEvent pid =>
    exact List.Nodup.sublist (ids_disconnect_sublist s pid) h
  | transportDown pid =>
    have hupd : (updatePlayer s pid
        (fun p => { p with wsOpen := false })).map Player.id
        = s.map Player.id := ids_updatePlayer (fun _ => rfl)
    show ((updatePlayer s pid
      (fun p => { p with wsOpen := false })).map Player.id).Nodup
    rw [hupd]
    exact h
  | reap now => exact List.Nodup.sublist (reapFold_ids_sublist s (s, [])) h
  | stats => exact h

lemma applyOp_dataId {s : ServerState} {op : Op}
    (h : ∀ p ∈ s, ∀ prof, p.data = some prof → prof.id = p.id) :
    ∀ p ∈ (applyOp s op).1, ∀ prof, p.data = some prof → prof.id = p.id := by
  intro q hq prof hprof
  cases op with
  | connect pid now =>
    rcases mem_mapSet hq with rfl | hq'
    · cases hprof
    · exact h q hq' prof hprof
  | message pid raw now =>
    obtain ⟨q₀, hq₀, hid, -, hcase⟩ := mem_message_state hq
    rcases hcase with hd | ⟨hqid, d, n, hd⟩ | ⟨g, hg, hd⟩
    · rw [hd] at hprof
      rw [h q₀ hq₀ prof hprof, hid]
    · rw [hd] at hprof
      rw [← Option.some.inj hprof, hqid]
      rfl
    · rw [hd] at hprof
      cases hd0 : q₀.data with
      | none =>
        rw [hd0] at hprof
        cases hprof
      | some pr =>
        rw [hd0] at hprof
        have : prof = g pr := (Option.some.inj hprof).symm
        rw [this, hg pr, h q₀ hq₀ pr hd0, hid]
  | closeEvent pid =>
    exact h q (disconnect_state_subset q hq) prof hprof
  | transportDown pid =>
    obtain ⟨q₀, hq₀, hqe⟩ := mem_updatePlayer.mp hq
    have hdata : q.data = q₀.data := by
      cases hc : (q₀.id == pid) with
      | true =>
        rw [hc] at hqe
        simp at hqe
        rw [hqe]
      | false =>
        rw [hc] at hqe
        simp at hqe
        rw [hqe]
    have hidq : q.id = q₀.id := by
      cases hc : (q₀.id == pid) with
      | true =>
        rw [hc] at hqe
        simp at hqe
        rw [hqe]
      | false =>
        rw [hc] at hqe
        simp at hqe
        rw [hqe]
    rw [hdata] at hprof
    rw [hidq]
    exact h q₀ hq₀ prof hprof
  | reap now =>
    exact h q (reapFold_state_subset s (s, []) q hq) prof hprof
  | stats => exact h q hq prof hprof

lemma applyOp_park {s : ServerState} {op : Op}
    (h : ∀ p ∈ s, p.location = "Park") :
    ∀ p ∈ (applyOp s op).1, p.location = "Park" := by
  intro q hq
  cases op with
  | connect pid now =>
    rcases mem_mapSet hq with rfl | hq'
    · rfl
    · exact h q hq'
  | message pid raw now =>
    obtain ⟨q₀, hq₀, -, hloc, -⟩ := mem_message_state hq
    rw [hloc]
    exact h q₀ hq₀
  | closeEvent pid => exact h q (disconnect_state_subset q hq)
  | transportDown pid =>
    obtain ⟨q₀, hq₀, hqe⟩ := mem_updatePlayer.mp hq
    have hloc : q.location = q₀.location := by
      cases hc : (q₀.id == pid) with
      | true =>
        rw [hc] at hqe
        simp at hqe
        rw [hqe]
      | false =>
        rw [hc] at hqe
        simp at hqe
        rw [hqe]
    rw [hloc]
    exact h q₀ hq₀
  | reap now => exact h q (reapFold_state_subset s (s, []) q hq)
  | stats => exact h q hq

lemma reachable_invariants {s : ServerState} (hs : Reachable s) :
    (s.map Player.id).Nodup ∧
    (∀ p ∈ s, ∀ prof, p.data = some prof → prof.id = p.id) ∧
    (∀ p ∈ s, p.location = "Park") := by
  induction hs with
  | init => exact ⟨List.nodup_nil, fun p hp => absurd hp (List.not_mem_nil p),
      fun p hp => absurd hp (List.not_mem_nil p)⟩
  | step s' op h ih =>
    exact ⟨applyOp_nodup ih.1, applyOp_dataId ih.2.1, applyOp_park ih.2.2⟩

lemma leave_out {s : ServerState} {pid r : PlayerId} {m : OutMsg}
    (h : (r, m) ∈ (handlePlayerLeave s pid).2) :
    ∃ w d, findPlayer s pid = some w ∧ w.data = some d ∧
      m = OutMsg.playerLeft pid d.nickname ∧ r ≠ pid ∧
      ∃ wr ∈ s, wr.id = r ∧ wr.data.isSome = true := by
  cases hf : findPlayer s pid with
  | none =>
    simp only [handlePlayerLeave, hf] at h
    cases h
  | some w =>
    cases hd : w.data with
    | none =>
      simp only [handlePlayerLeave, hf, hd] at h
      cases h
    | some d =>
      simp only [handlePlayerLeave, hf, hd] at h
      rw [mem_broadcast] at h
      obtain ⟨hm, hne, ⟨wr, hwr, hwrid, -, hwrdata⟩, -⟩ := h
      exact ⟨w, d, rfl, hd, hm, fun he => hne (congrArg some he.symm),
        wr, hwr, hwrid, hwrdata⟩

lemma chat_out {s : ServerState} {pid : PlayerId} {od : Option ChatData}
    {now : Nat} {s' : ServerState} {outs : List Send} {r : PlayerId}
    {m : OutMsg} (h : handleChatMessage s pid od now = .ok (s', outs))
    (hm : (r, m) ∈ outs) :
    ∃ p prof, findPlayer s pid = some p ∧ p.data = some prof ∧
      (∃ t, m = OutMsg.chatMessage pid prof.username prof.nickname t now) ∧
      r ≠ pid ∧ ∃ wr ∈ s, wr.id = r ∧ wr.data.isSome = true := by
  cases hf : findPlayer s pid with
  | none =>
    simp only [handleChatMessage, hf, Except.ok.injEq, Prod.mk.injEq] at h
    rw [← h.2] at hm
    cases hm
  | some p =>
    cases hd : p.data with
    | none =>
      simp only [handleChatMessage, hf, hd, Except.ok.injEq,
        Prod.mk.injEq] at h
      rw [← h.2] at hm
      cases hm
    | some prof =>
      cases od with
      | none =>
        simp only [handleChatMessage, hf, hd] at h
        exact Except.noConfusion h
      | some cd =>
        cases ht : cd.text with
        | none =>
          simp only [handleChatMessage, hf, hd, ht, Except.ok.injEq,
            Prod.mk.injEq] at h
          rw [← h.2] at hm
          cases hm
        | some t =>
          by_cases he : t = ""
          · simp only [handleChatMessage, hf, hd, ht] at h
            rw [if_pos he] at h
            rw [Except.ok.injEq, Prod.mk.injEq] at h
            rw [← h.2] at hm
            cases hm
          · by_cases hl : jsLen (jsTrim t) = 0
            · simp only [handleChatMessage, hf, hd, ht] at h
              rw [if_neg he, if_pos hl, Except.ok.injEq, Prod.mk.injEq] at h
              rw [← h.2] at hm
              cases hm
            · simp only [handleChatMessage, hf, hd, ht] at h
              rw [if_neg he, if_neg hl, Except.ok.injEq, Prod.mk.injEq] at h
              rw [← h.2] at hm
              rw [mem_broadcast] at hm
              obtain ⟨hmm, hne, ⟨wr, hwr, hwrid, -, hwrdata⟩, -⟩ := hm
              exact ⟨p, prof, rfl, hd, ⟨_, hmm⟩,
                fun heq => hne (congrArg some heq.symm),
                wr, hwr, hwrid, hwrdata⟩

lemma move_out {s : ServerState} {pid : PlayerId} {od : Option MoveData}
    {s' : ServerState} {outs : List Send} {r : PlayerId} {m : OutMsg}
    (h : handlePlayerMove s pid od = .ok (s', outs)) (hm : (r, m) ∈ outs) :
    (∃ x y, m = OutMsg.playerMoved pid x y) ∧ r ≠ pid ∧
      (∃ wr ∈ s', wr.id = r ∧ wr.data.isSome = true) ∧
      ∃ wa ∈ s', wa.id = pid ∧ wa.data.isSome = true := by
  cases hf : findPlayer s pid with
  | none =>
    simp only [handlePlayerMove, hf, Except.ok.injEq, Prod.mk.injEq] at h
    rw [← h.2] at hm
    cases hm
  | some p =>
    cases hd : p.data with
    | none =>
      simp only [handlePlayerMove, hf, hd, Except.ok.injEq,
        Prod.mk.injEq] at h
      rw [← h.2] at hm
      cases hm
    | some prof =>
      cases od with
      | none =>
        simp only [handlePlayerMove, hf, hd] at h
        exact Except.noConfusion h
      | some md =>
        simp only [handlePlayerMove, hf, hd, Except.ok.injEq,
          Prod.mk.injEq] at h
        rw [← h.2] at hm
        rw [mem_broadcast] at hm
        obtain ⟨hmm, hne, ⟨wr, hwr, hwrid, -, hwrdata⟩, -⟩ := hm
        have hfind' : findPlayer (updatePlayer s pid (fun q => { q with data := q.data.map (fun pr => { pr with x := some (clampMove md.x), y := some (clampMove md.y) }) })) pid
            = some { p with data := p.data.map (fun pr => { pr with x := some (clampMove md.x), y := some (clampMove md.y) }) } := by
          rw [findPlayer_mapData_self, hf]
          rfl
        obtain ⟨hwamem, hwaid⟩ := findPlayer_some hfind'
        refine ⟨⟨_, _, hmm⟩, fun heq => hne (congrArg some heq.symm),
          ⟨wr, by rw [h.1] at hwr; exact hwr, hwrid, hwrdata⟩,
          ⟨{ p with data := p.data.map (fun pr => { pr with x := some (clampMove md.x), y := some (clampMove md.y) }) },
            by rw [h.1] at hwamem; exact hwamem, hwaid, by simp [hd]⟩⟩

lemma join_out {s : ServerState} {pid : PlayerId} {d : JoinData} {now : Nat}
    {r : PlayerId} {m : OutMsg}
    (h : (r, m) ∈ (handlePlayerJoin s pid d now).2) :
    (∃ l, m = OutMsg.playerList l ∧ r = pid ∧
      ∀ prof ∈ l, ∃ w ∈ (handlePlayerJoin s pid d now).1,
        w.data = some prof) ∨
    (m = OutMsg.playerJoined (mkProfile pid d now) ∧ r ≠ pid ∧
      (∃ wr ∈ (handlePlayerJoin s pid d now).1, wr.id = r ∧
        wr.data.isSome = true) ∧
      ∃ wa ∈ (handlePlayerJoin s pid d now).1, wa.id = pid ∧
        wa.data.isSome = true) := by
  cases hf : findPlayer s pid with
  | none =>
    simp only [handlePlayerJoin, hf] at h
    cases h
  | some p =>
    have hstate : (handlePlayerJoin s pid d now).1
        = updatePlayer s pid
          (fun q => { q with data := some (mkProfile pid d now) }) := by
      simp only [handlePlayerJoin, hf]
    have hfind' : findPlayer (handlePlayerJoin s pid d now).1 pid
        = some { p with data := some (mkProfile pid d now) } := by
      rw [hstate, findPlayer_setData_self, hf]
      rfl
    obtain ⟨hwamem, hwaid⟩ := findPlayer_some hfind'
    simp only [handlePlayerJoin, hf] at h
    rcases List.mem_append.mp h with h | h
    · rw [mem_sendToPlayer] at h
      obtain ⟨hr, hmm, -⟩ := h
      left
      refine ⟨_, hmm, hr, ?_⟩
      intro prof hprof
      obtain ⟨w, hw, hwdata⟩ := List.mem_filterMap.mp hprof
      rw [mem_getPlayersInLocation] at hw
      refine ⟨w, ?_, hwdata⟩
      rw [hstate]
      exact hw.1
    · rw [mem_broadcast] at h
      obtain ⟨hmm, hne, ⟨wr, hwr, hwrid, -, hwrdata⟩, -⟩ := h
      right
      refine ⟨hmm, fun heq => hne (congrArg some heq.symm),
        ⟨wr, ?_, hwrid, hwrdata⟩,
        ⟨{ p with data := some (mkProfile pid d now) }, hwamem, hwaid,
          rfl⟩⟩
      rw [hstate]
      exact hwr

lemma out_sound {s : ServerState} {op : Op} {r : PlayerId} {m : OutMsg}
    (hm : (r, m) ∈ (applyOp s op).2) :
    (isLocBroadcast m = true →
      ∃ w, w.id = r ∧ w.data.isSome = true ∧
        (w ∈ s ∨ w ∈ (applyOp s op).1)) ∧
    (∀ aid, actorOf m = some aid →
      ∃ w, w.id = aid ∧ w.data.isSome = true ∧
        (w ∈ s ∨ w ∈ (applyOp s op).1)) ∧
    (∀ l, m = OutMsg.playerList l →
      ∀ prof ∈ l, ∃ w ∈ (applyOp s op).1, w.data = some prof) := by
  cases op with
  | connect pid now =>
    obtain ⟨hr, hmm, -⟩ := mem_sendToPlayer.mp hm
    subst hmm
    exact ⟨fun h => Bool.noConfusion h, fun aid h => Option.noConfusion h,
      fun l h => OutMsg.noConfusion h⟩
  | message pid raw now =>
    cases raw with
    | malformed =>
      obtain ⟨hr, hmm, -⟩ := mem_sendToPlayer.mp hm
      subst hmm
      exact ⟨fun h => Bool.noConfusion h, fun aid h => Option.noConfusion h,
        fun l h => OutMsg.noConfusion h⟩
    | msg env =>
      cases hf : findPlayer s pid with
      | none =>
        simp only [applyOp, handlePlayerMessage, hf] at hm
        cases hm
      | some p =>
        have hf1 : findPlayer (touch s pid now) pid
            = some { p with lastActivity := now } := by
          rw [findPlayer_touch_self, hf]
          rfl
        have sibling : ∀ w : Player, w ∈ touch s pid now →
            ∃ w₀, w₀.id = w.id ∧ w₀.data = w.data ∧ w₀ ∈ s := by
          intro w hw
          obtain ⟨w₀, hw₀, hid, -, hdata⟩ := mem_touch_state hw
          exact ⟨w₀, hid.symm, hdata.symm, hw₀⟩
        cases env with
        | playerJoin d =>
          have hms : (applyOp s (Op.message pid
              (Inbound.msg (Envelope.playerJoin d)) now)).2
              = (handlePlayerJoin (touch s pid now) pid d now).2 := by
            simp only [applyOp, handlePlayerMessage, hf]
          have hms1 : (applyOp s (Op.message pid
              (Inbound.msg (Envelope.playerJoin d)) now)).1
              = (handlePlayerJoin (touch s pid now) pid d now).1 := by
            simp only [applyOp, handlePlayerMessage, hf]
          rw [hms] at hm
          rcases join_out hm with ⟨l, hmm, hr, hl⟩ | ⟨hmm, hr, hrec, hact⟩
          · subst hmm
            refine ⟨fun h => Bool.noConfusion h, fun aid h => Option.noConfusion h, ?_⟩
            intro l' hl' prof hprof
            rw [OutMsg.playerList.injEq] at hl'
            subst hl'
            obtain ⟨w, hw, hwdata⟩ := hl prof hprof
            exact ⟨w, by rw [hms1]; exact hw, hwdata⟩
          · subst hmm
            obtain ⟨wr, hwr, hwrid, hwrdata⟩ := hrec
            obtain ⟨wa, hwa, hwaid, hwadata⟩ := hact
            refine ⟨?_, ?_, fun l h => OutMsg.noConfusion h⟩
            · intro
              exact ⟨wr, hwrid, hwrdata, Or.inr (by rw [hms1]; exact hwr)⟩
            · intro aid h
              have : aid = pid := by
                simp [actorOf, mkProfile] at h
                exact h.symm
              subst this
              exact ⟨wa, hwaid, hwadata, Or.inr (by rw [hms1]; exact hwa)⟩
        | playerLeave =>
          have hms : (applyOp s (Op.message pid
              (Inbound.msg Envelope.playerLeave) now)).2
              = (handlePlayerLeave (touch s pid now) pid).2 := by
            simp only [applyOp, handlePlayerMessage, hf]
          rw [hms] at hm
          obtain ⟨w, dd, hfw, hwdata, hmm, hr, wr, hwr, hwrid, hwrdata⟩ :=
            leave_out hm
          subst hmm
          obtain ⟨wr₀, hwr₀id, hwr₀data, hwr₀⟩ := sibling wr hwr
          obtain ⟨hwmem, hwid⟩ := findPlayer_some hfw
          obtain ⟨w₀, hw₀id, hw₀data, hw₀⟩ := sibling w hwmem
          refine ⟨?_, ?_, fun l h => OutMsg.noConfusion h⟩
          · intro
            exact ⟨wr₀, hwr₀id.trans hwrid, by rw [hwr₀data]; exact hwrdata,
              Or.inl hwr₀⟩
          · intro aid h
            have haid : aid = pid := by
              simp [actorOf] at h
              exact h.symm
            subst haid
            exact ⟨w₀, hw₀id.trans hwid, by rw [hw₀data, hwdata]; rfl,
              Or.inl hw₀⟩
        | chatMessage od =>
          rcases hcc : handleChatMessage (touch s pid now) pid od now with
            herr | ⟨s2, outs2⟩
          · have hms : (applyOp s (Op.message pid
                (Inbound.msg (Envelope.chatMessage od)) now)).2
                = sendToPlayer (touch s pid now) pid
                  (OutMsg.error "Invalid message format") := by
              simp only [applyOp, handlePlayerMessage, hf, hcc]
            rw [hms] at hm
            obtain ⟨hr, hmm, -⟩ := mem_sendToPlayer.mp hm
            subst hmm
            exact ⟨fun h => Bool.noConfusion h, fun aid h => Option.noConfusion h,
              fun l h => OutMsg.noConfusion h⟩
          · have hms : (applyOp s (Op.message pid
                (Inbound.msg (Envelope.chatMessage od)) now)).2 = outs2 := by
              simp only [applyOp, handlePlayerMessage, hf, hcc]
            rw [hms] at hm
            obtain ⟨p1, prof1, hfp1, hp1data, ⟨t, hmm⟩, hr, wr, hwr, hwrid,
              hwrdata⟩ := chat_out hcc hm
            subst hmm
            obtain ⟨wr₀, hwr₀id, hwr₀data, hwr₀⟩ := sibling wr hwr
            obtain ⟨hp1mem, hp1id⟩ := findPlayer_some hfp1
            obtain ⟨w₀, hw₀id, hw₀data, hw₀⟩ := sibling p1 hp1mem
            refine ⟨?_, ?_, fun l h => OutMsg.noConfusion h⟩
            · intro
              exact ⟨wr₀, hwr₀id.trans hwrid,
                by rw [hwr₀data]; exact hwrdata, Or.inl hwr₀⟩
            · intro aid h
              have haid : aid = pid := by
                simp [actorOf] at h
                exact h.symm
              subst haid
              exact ⟨w₀, hw₀id.trans hp1id,
                by rw [hw₀data, hp1data]; rfl, Or.inl hw₀⟩
        | playerMove od =>
          rcases hcc : handlePlayerMove (touch s pid now) pid od with
            herr | ⟨s2, outs2⟩
          · have hms : (applyOp s (Op.message pid
                (Inbound.msg (Envelope.playerMove od)) now)).2
                = sendToPlayer (touch s pid now) pid
                  (OutMsg.error "Invalid message format") := by
              simp only [applyOp, handlePlayerMessage, hf, hcc]
            rw [hms] at hm
            obtain ⟨hr, hmm, -⟩ := mem_sendToPlayer.mp hm
            subst hmm
            exact ⟨fun h => Bool.noConfusion h, fun aid h => Option.noConfusion h,
              fun l h => OutMsg.noConfusion h⟩
          · have hms : (applyOp s (Op.message pid
                (Inbound.msg (Envelope.playerMove od)) now)).2 = outs2 := by
              simp only [applyOp, handlePlayerMessage, hf, hcc]
            have hms1 : (applyOp s (Op.message pid
                (Inbound.msg (Envelope.playerMove od)) now)).1 = s2 := by
              simp only [applyOp, handlePlayerMessage, hf, hcc]
            rw [hms] at hm
            obtain ⟨⟨x, y, hmm⟩, hr, ⟨wr, hwr, hwrid, hwrdata⟩,
              wa, hwa, hwaid, hwadata⟩ := move_out hcc hm
            subst hmm
            refine ⟨?_, ?_, fun l h => OutMsg.noConfusion h⟩
            · intro
              exact ⟨wr, hwrid, hwrdata, Or.inr (by rw [hms1]; exact hwr)⟩
            · intro aid h
              have haid : aid = pid := by
                simp [actorOf] at h
                exact h.symm
              subst haid
              exact ⟨wa, hwaid, hwadata, Or.inr (by rw [hms1]; exact hwa)⟩
        | unknown t =>
          have hms : (applyOp s (Op.message pid
              (Inbound.msg (Envelope.unknown t)) now)).2
              = sendToPlayer (touch s pid now) pid
                (OutMsg.error "Unknown message type") := by
            simp only [applyOp, handlePlayerMessage, hf]
          rw [hms] at hm
          obtain ⟨hr, hmm, -⟩ := mem_sendToPlayer.mp hm
          subst hmm
          exact ⟨fun h => Bool.noConfusion h, fun aid h => Option.noConfusion h,
            fun l h => OutMsg.noConfusion h⟩
  | closeEvent pid =>
    obtain ⟨w, dd, hfw, hwdata, hmm, hr, wr, hwr, hwrid, hwrdata, -⟩ :=
      disconnect_out hm
    subst hmm
    obtain ⟨hwmem, hwid⟩ := findPlayer_some hfw
    refine ⟨?_, ?_, fun l h => OutMsg.noConfusion h⟩
    · intro
      exact ⟨wr, hwrid, hwrdata, Or.inl hwr⟩
    · intro aid h
      have haid : aid = pid := by
        simp [actorOf] at h
        exact h.symm
      subst haid
      exact ⟨w, hwid, by rw [hwdata]; rfl, Or.inl hwmem⟩
  | transportDown pid => cases hm
  | reap now =>
    have hsends := reapFold_sends (S := s) s (s, []) (fun q hq => hq) r m hm
    rcases hsends with h | ⟨wa, hwa, dd, hwadata, hmm, hr, wr, hwr, hwrid,
      hwrdata, -⟩
    · cases h
    · subst hmm
      refine ⟨?_, ?_, fun l h => OutMsg.noConfusion h⟩
      · intro
        exact ⟨wr, hwrid, hwrdata, Or.inl hwr⟩
      · intro aid h
        have haid : aid = wa.id := by
          simp [actorOf] at h
          exact h.symm
        subst haid
        exact ⟨wa, rfl, by rw [hwadata]; rfl, Or.inl hwa⟩
  | stats => cases hm

/-- C10: in every reachable Registry state, every session's `location`
equals the constant "Park": connections are created with location "Park"
and no operation ever reassigns `session.location`. -/
theorem c10_single_location (s : ServerState) (hs : Reachable s) (p : Player)
    (hp : p ∈ s) : p.location = "Park" :=
  (reachable_invariants hs).2.2 p hp

/-- Witness for C10: the state reached by a single connection. -/
theorem c10_single_location_witness :
    (Player.mk "a" true none "Park" 0).location = "Park" :=
  c10_single_location (applyOp [] (Op.connect "a" 0)).1
    (Reachable.step [] (Op.connect "a" 0) Reachable.init)
    (Player.mk "a" true none "Park" 0) (by decide)

/-- C2: in every reachable state, a session whose profile is unset (and
stays unset across the operation) never appears in a `player_list` payload,
is never a recipient of a location broadcast
(`player_joined`/`player_left`/`player_moved`/`chat_message`), and is never
named as the acting player of such a broadcast. -/
theorem c2_invisible_unjoined (s : ServerState) (op : Op) (q : Player)
    (r aid : PlayerId) (m : OutMsg) (l : List Profile) (prof : Profile)
    (hs : Reachable s) (hq : q ∈ s) (hqd : q.data = none)
    (hq' : ∀ p ∈ (applyOp s op).1, p.id = q.id → p.data = none)
    (hm : (r, m) ∈ (applyOp s op).2) :
    (isLocBroadcast m = true → r ≠ q.id) ∧
    (m = OutMsg.playerList l → prof ∈ l → prof.id ≠ q.id) ∧
    (actorOf m = some aid → aid ≠ q.id) := by
  obtain ⟨hnd, hinv2, -⟩ := reachable_invariants hs
  obtain ⟨hbr, hact, hlist⟩ := out_sound hm
  have dichotomy : ∀ w : Player, w.data.isSome = true →
      (w ∈ s ∨ w ∈ (applyOp s op).1) → w.id ≠ q.id := by
    intro w hwdata hw heq
    rcases hw with hw | hw
    · have : w = q := id_inj hnd hw hq heq
      rw [this, hqd] at hwdata
      cases hwdata
    · rw [hq' w hw heq] at hwdata
      cases hwdata
  have hactor : ∀ aid', actorOf m = some aid' → aid' ≠ q.id := by
    intro aid' ha heq
    obtain ⟨w, hwid, hwdata, hw⟩ := hact aid' ha
    exact dichotomy w hwdata hw (hwid.trans heq)
  refine ⟨?_, ?_, hactor aid⟩
  · intro hloc heq
    obtain ⟨w, hwid, hwdata, hw⟩ := hbr hloc
    exact dichotomy w hwdata hw (hwid.trans heq)
  · intro hml hprof heq
    obtain ⟨w, hw, hwdata⟩ := hlist l hml prof hprof
    have hpid : prof.id = w.id := applyOp_dataId hinv2 w hw prof hwdata
    have : w.data = none := hq' w hw (hpid ▸ heq)
    rw [this] at hwdata
    cases hwdata

/-- Witness for C2: in the reachable state where "q" is connected but never
joined and "b", "c" are active in "Park", a chat from "b" is delivered to
"c" only; the unjoined "q" is neither recipient, listed, nor actor. -/
theorem c2_invisible_unjoined_witness :
    (isLocBroadcast (OutMsg.chatMessage "b" none (some "B")
        (jsSubstring0 (jsTrim "hi") 200) 9) = true →
      ("c" : PlayerId) ≠ (Player.mk "q" true none "Park" 0).id) ∧
    (OutMsg.chatMessage "b" none (some "B") (jsSubstring0 (jsTrim "hi") 200) 9
        = OutMsg.playerList [] →
      mkProfile "b" (JoinData.mk none (some "B") none) 1 ∈
        ([] : List Profile) →
      (mkProfile "b" (JoinData.mk none (some "B") none) 1).id
        ≠ (Player.mk "q" true none "Park" 0).id) ∧
    (actorOf (OutMsg.chatMessage "b" none (some "B")
        (jsSubstring0 (jsTrim "hi") 200) 9) = some "b" →
      ("b" : PlayerId) ≠ (Player.mk "q" true none "Park" 0).id) :=
  c2_invisible_unjoined _
    (Op.message "b" (Inbound.msg (Envelope.chatMessage
      (some (ChatData.mk (some "hi"))))) 9)
    (Player.mk "q" true none "Park" 0) "c" "b"
    (OutMsg.chatMessage "b" none (some "B") (jsSubstring0 (jsTrim "hi") 200)
      9)
    [] (mkProfile "b" (JoinData.mk none (some "B") none) 1)
    (Reachable.step _
      (Op.message "c" (Inbound.msg (Envelope.playerJoin
        (JoinData.mk none (some "C") none))) 2)
      (Reachable.step _
        (Op.message "b" (Inbound.msg (Envelope.playerJoin
          (JoinData.mk none (some "B") none))) 1)
        (Reachable.step _ (Op.connect "c" 0)
          (Reachable.step _ (Op.connect "b" 0)
            (Reachable.step [] (Op.connect "q" 0) Reachable.init)))))
    (by decide) (by decide) (by decide) (by decide)

end CityWave
